import Mathlib

/-!
Shallow embedding of the youtube-transcript library (`src/index.ts`).

Network effects are factored out: the watch-page body and the caption-feed
fetch are passed in as parameters/oracles.  JavaScript strings are modelled
as Lean `String`/`List Char`, JavaScript numbers as `JsNumber` (a rational,
NaN, or a signed infinity), `JSON.parse` as a fueled recursive-descent
parser `jsonParse`, and uncaught JavaScript runtime exceptions
(`TypeError` from a property access on `undefined`/`null`, `SyntaxError`
from `JSON.parse`) as dedicated error constructors next to the library's
own error taxonomy.  `Option Json` models a JavaScript value that may be
`undefined` (`none` = `undefined`).
-/

/-- JSON values as produced by `JSON.parse`.  Numbers keep their source
lexeme (no claim depends on the numeric value of a JSON number literal);
object fields keep document order, and on lookup a later duplicate key
wins, as in JavaScript. -/
inductive Json where
  | null : Json
  | bool : Bool → Json
  | num : String → Json
  | str : String → Json
  | arr : List Json → Json
  | obj : List (String × Json) → Json

/-- The error taxonomy of the library (the `YoutubeTranscript*Error`
classes), together with the two kinds of raw JavaScript runtime exceptions
the code can let escape: `syntaxError` (an uncaught `JSON.parse` failure)
and `typeError` (an uncaught property access on `undefined`/`null`, or an
`in` test on a primitive).  The `languageNotAvailable` payload carries, in
source order, the requested language, `captionTracks.map(t => t.languageCode)`
and the `videoId` argument. -/
inductive JsError where
  | invalidIdentifier : JsError
  | tooManyRequests : JsError
  | videoUnavailable : String → JsError
  | notAvailable : String → JsError
  | languageNotAvailable : String → List (Option Json) → String → JsError
  | syntaxError : JsError
  | typeError : JsError

/-- An exact rational in lowest terms (`den > 0`), constructed only via
`qnMk`; a plain pair rather than Mathlib's `ℚ` so that every arithmetic
step reduces inside `decide`/`rfl`. -/
structure ExactQ where
  num : Int
  den : Nat
deriving DecidableEq

/-- Normalize a fraction to lowest terms (the denominator argument is
always positive here, and the division is exact). -/
def qnMk (num : Int) (den : Nat) : ExactQ :=
  let g := Nat.gcd num.natAbs den
  if g = 0 then ⟨num, den⟩ else ⟨num / (g : Int), den / g⟩

/-- A whole number as an `ExactQ`. -/
def qnInt (n : Int) : ExactQ :=
  ⟨n, 1⟩

/-- JavaScript numbers, as far as the claims need them: NaN, a signed
infinity, or an exact finite value.  All finite values arising in the
claims (`parseFloat` / `parseInt` results on decimal text) are
represented exactly. -/
inductive JsNumber where
  | nan : JsNumber
  | inf : Bool → JsNumber
  | val : ExactQ → JsNumber
deriving DecidableEq

/-- The JavaScript `\s` character class (ECMAScript WhiteSpace and
LineTerminator code points), used by the `RE_YOUTUBE` pattern and by the
leading-whitespace skipping of `parseFloat`/`parseInt`. -/
def jsWhitespace (c : Char) : Bool :=
  (c == ' ') || (c == '\t') || (c == '\n') || (c == '\x0b') || (c == '\x0c') ||
  (c == '\r') || (c == ' ') || (c == ' ') ||
  ((' ' ≤ c) && (c ≤ ' ')) || (c == ' ') || (c == ' ') ||
  (c == ' ') || (c == ' ') || (c == '　') || (c == '﻿')

/-- Drop leading JavaScript whitespace (for `parseFloat` / `parseInt`). -/
def skipJsWs : List Char → List Char
  | [] => []
  | c :: s => if jsWhitespace c then skipJsWs s else c :: s

/-- Digits of a decimal string as a natural number (helper for the numeric
conversions; the argument is a list of `0`-`9` characters). -/
def digitsToNat (ds : List Char) : Nat :=
  ds.foldl (fun acc c => acc * 10 + (c.toNat - '0'.toNat)) 0

/-- JavaScript `parseInt(s, 10)`: skip leading whitespace, optional sign,
then the longest prefix of decimal digits; no digits gives `NaN`. -/
def jsParseInt10 (s : String) : JsNumber :=
  let t := skipJsWs s.data
  let (neg, t) :=
    match t with
    | '-' :: r => (true, r)
    | '+' :: r => (false, r)
    | r => (false, r)
  let ds := t.takeWhile (fun c : Char => c.isDigit)
  if ds.isEmpty then .nan
  else .val (qnInt ((if neg then -1 else 1) * (digitsToNat ds : Int)))

/-- JavaScript `parseFloat(s)`: skip leading whitespace, optional sign,
then the longest prefix shaped `Infinity`, or digits, an optional fraction
and an optional exponent (the exponent only counts when at least one digit
follows `e`/`E`); if no digits at all are found the result is `NaN`. -/
def jsParseFloat (s : String) : JsNumber :=
  let t := skipJsWs s.data
  let (neg, t) :=
    match t with
    | '-' :: r => (true, r)
    | '+' :: r => (false, r)
    | r => (false, r)
  if t.take 8 = "Infinity".data then .inf neg
  else
    let ip := t.takeWhile (fun c : Char => c.isDigit)
    let t1 := t.drop ip.length
    let (fp, t2) :=
      match t1 with
      | '.' :: r => (r.takeWhile (fun c : Char => c.isDigit), r.drop ((r.takeWhile (fun c : Char => c.isDigit)).length))
      | r => ([], r)
    if ip.isEmpty && fp.isEmpty then .nan
    else
      let mant : Int := (if neg then -1 else 1) * (digitsToNat (ip ++ fp) : Int)
      let exp : Int :=
        match t2 with
        | 'e' :: r | 'E' :: r =>
          let (eneg, r2) :=
            match r with
            | '-' :: r2 => (true, r2)
            | '+' :: r2 => (false, r2)
            | r2 => (false, r2)
          let eds := r2.takeWhile (fun c : Char => c.isDigit)
          if eds.isEmpty then 0
          else (if eneg then -1 else 1) * (digitsToNat eds : Int)
        | _ => 0
      let e2 : Int := exp - (fp.length : Int)
      if 0 ≤ e2 then .val (qnInt (mant * (10 : Int) ^ e2.toNat))
      else .val (qnMk mant ((10 : Nat) ^ (-e2).toNat))

/-- `convertViewCount` from the source: a falsy argument (absent or empty
string) gives `0`; otherwise every character that is not a digit or a dot
is removed (`replace(/[^\d.]/g, '')`), then every dot
(`replace(/\./g, '')`), and the rest goes through `parseInt(·, 10)`. -/
def convertViewCount (viewCount : Option String) : JsNumber :=
  match viewCount with
  | none => .val (qnInt 0)
  | some s =>
    if s = "" then .val (qnInt 0)
    else
      let cleaned := s.data.filter (fun c : Char => c.isDigit || c == '.')
      jsParseInt10 (String.mk (cleaned.filter (fun c => !(c == '.'))))

/-- Find the first occurrence of `sep` in `s`: returns the text before the
occurrence and the text after it (`String.prototype.indexOf` / the splitting
step of `String.prototype.split` share this scan). -/
def findSep (sep : List Char) : List Char → Option (List Char × List Char)
  | [] => if sep.isEmpty then some ([], []) else none
  | c :: s =>
    if sep.isPrefixOf (c :: s) then some ([], (c :: s).drop sep.length)
    else
      match findSep sep s with
      | some (pre, rest) => some (c :: pre, rest)
      | none => none

/-- JavaScript `s.includes(sep)`. -/
def jsIncludes (s sep : String) : Bool :=
  (findSep sep.data s.data).isSome

/-- JavaScript `s.indexOf(sep)` (`none` for `-1`). -/
def jsIndexOf (s sep : List Char) : Option Nat :=
  (findSep sep s).map (fun pr => pr.1.length)

/-- JavaScript `s.indexOf(sep, from)` with a nonnegative `from`. -/
def jsIndexOfFrom (s sep : List Char) (i : Nat) : Option Nat :=
  (findSep sep (s.drop i)).map (fun pr => i + pr.1.length)

/-- JavaScript `s.substring(a, b)` (swapping the bounds when `a > b`). -/
def jsSubstring (s : List Char) (a b : Nat) : List Char :=
  ((s.drop (min a b)).take (max a b - min a b))

/-- Fueled worker for `String.prototype.split` with a nonempty string
separator. -/
def jsSplitGo (sep : List Char) : Nat → List Char → List (List Char)
  | 0, s => [s]
  | f+1, s =>
    match findSep sep s with
    | none => [s]
    | some (pre, rest) => pre :: jsSplitGo sep f rest

/-- JavaScript `s.split(sep)` for a nonempty string separator. -/
def jsSplitSep (s sep : String) : List (List Char) :=
  jsSplitGo sep.data (s.data.length + 1) s.data

/-- JavaScript `s.replace('\n', '')`: a *string* (not regex) pattern, so
only the first newline is removed. -/
def removeFirstNewline (s : String) : String :=
  match findSep ['\n'] s.data with
  | none => s
  | some (pre, rest) => String.mk (pre ++ rest)

/-- Modelled from the spec: the spec's reading "strip stray newline
characters" — removal of *all* newline characters — used only to compare
the spec's wording against the source's `replace('\n', '')`. -/
def removeAllNewlines (s : String) : String :=
  String.mk (s.data.filter (fun c => !(c == '\n')))

/-- JSON whitespace (the four characters `JSON.parse` skips). -/
def jsonWs (c : Char) : Bool :=
  (c == ' ') || (c == '\t') || (c == '\n') || (c == '\r')

/-- Drop leading JSON whitespace. -/
def skipWs : List Char → List Char
  | [] => []
  | c :: s => if jsonWs c then skipWs s else c :: s

/-- Value of a hex digit, if any (code points 48-57, 97-102, 65-70). -/
def hexVal (c : Char) : Option Nat :=
  let n := c.toNat
  if 48 ≤ n && n ≤ 57 then some (n - 48)
  else if 97 ≤ n && n ≤ 102 then some (n - 87)
  else if 65 ≤ n && n ≤ 70 then some (n - 55)
  else none

/-- Body of a JSON string literal, after the opening quote: returns the
decoded content and the rest after the closing quote.  Raw control
characters are rejected and escapes are decoded.  One modelling
simplification against `JSON.parse`: a `\uXXXX` escape in the surrogate
range decodes to U+FFFD instead of taking part in UTF-16 pair combination
(Lean `Char` has no surrogates; no claim involves non-BMP text). -/
def parseStringBody : List Char → Option (List Char × List Char)
  | [] => none
  | c :: s =>
    if c == '"' then some ([], s)
    else if c == '\\' then
      match s with
      | [] => none
      | 'u' :: h1 :: h2 :: h3 :: h4 :: s2 =>
        match hexVal h1, hexVal h2, hexVal h3, hexVal h4 with
        | some a, some b, some cc, some d =>
          let code := ((a * 16 + b) * 16 + cc) * 16 + d
          let decoded := if 0xD800 ≤ code && code ≤ 0xDFFF then '�' else Char.ofNat code
          match parseStringBody s2 with
          | some (content, rest) => some (decoded :: content, rest)
          | none => none
        | _, _, _, _ => none
      | e :: s2 =>
        let dec : Option Char :=
          if e == '"' then some '"'
          else if e == '\\' then some '\\'
          else if e == '/' then some '/'
          else if e == 'b' then some '\x08'
          else if e == 'f' then some '\x0C'
          else if e == 'n' then some '\n'
          else if e == 'r' then some '\r'
          else if e == 't' then some '\t'
          else none
        match dec with
        | some d =>
          match parseStringBody s2 with
          | some (content, rest) => some (d :: content, rest)
          | none => none
        | none => none
    else if c.toNat < 0x20 then none
    else
      match parseStringBody s with
      | some (content, rest) => some (c :: content, rest)
      | none => none

/-- Lexeme of a JSON number literal (strict JSON grammar:
`-? (0 | [1-9][0-9]*) (. [0-9]+)? ([eE][+-]?[0-9]+)?`), with the rest. -/
def parseNumberLex (s : List Char) : Option (List Char × List Char) :=
  let (sgn, t) :=
    match s with
    | '-' :: r => ((['-'] : List Char), r)
    | r => ([], r)
  match t with
  | [] => none
  | c :: _ =>
    if !c.isDigit then none
    else
      let ip := if c == '0' then ['0'] else t.takeWhile (fun ch : Char => ch.isDigit)
      let t1 := t.drop ip.length
      let (fp, t2) :=
        match t1 with
        | '.' :: r =>
          let ds := r.takeWhile (fun ch : Char => ch.isDigit)
          if ds.isEmpty then (([] : List Char), t1) else ('.' :: ds, r.drop ds.length)
        | _ => ([], t1)
      if (match t1 with | '.' :: _ => fp.isEmpty | _ => false) then none
      else
        let (ep, t3) :=
          match t2 with
          | e :: r =>
            if e == 'e' || e == 'E' then
              match r with
              | sg :: r2 =>
                if sg == '+' || sg == '-' then
                  let ds := r2.takeWhile (fun ch : Char => ch.isDigit)
                  if ds.isEmpty then (([] : List Char), t2) else (e :: sg :: ds, r2.drop ds.length)
                else
                  let ds := r.takeWhile (fun ch : Char => ch.isDigit)
                  if ds.isEmpty then (([] : List Char), t2) else (e :: ds, r.drop ds.length)
              | [] => ([], t2)
            else ([], t2)
          | [] => ([], t2)
        if (match t2 with | e :: _ => (e == 'e' || e == 'E') && ep.isEmpty | _ => false) then none
        else some (sgn ++ ip ++ fp ++ ep, t3)

/-- Fueled object-member list parser (after the opening `{`, first member
expected next; `pv` parses one JSON value). -/
def parseMembersF (pv : List Char → Option (Json × List Char)) :
    Nat → List Char → Option (List (String × Json) × List Char)
  | 0, _ => none
  | f+1, s =>
    match skipWs s with
    | '"' :: s1 =>
      match parseStringBody s1 with
      | some (key, s2) =>
        match skipWs s2 with
        | ':' :: s3 =>
          match pv s3 with
          | some (v, s4) =>
            match skipWs s4 with
            | ',' :: s5 =>
              match parseMembersF pv f s5 with
              | some (kvs, rest) => some ((String.mk key, v) :: kvs, rest)
              | none => none
            | '}' :: s5 => some ([(String.mk key, v)], s5)
            | _ => none
          | none => none
        | _ => none
      | none => none
    | _ => none

/-- Fueled array-element list parser (after the opening `[`, first element
expected next). -/
def parseElemsF (pv : List Char → Option (Json × List Char)) :
    Nat → List Char → Option (List Json × List Char)
  | 0, _ => none
  | f+1, s =>
    match pv s with
    | some (v, s1) =>
      match skipWs s1 with
      | ',' :: s2 =>
        match parseElemsF pv f s2 with
        | some (vs, rest) => some (v :: vs, rest)
        | none => none
      | ']' :: s2 => some ([v], s2)
      | _ => none
    | none => none

/-- Fueled parser for one JSON value (leading whitespace allowed),
returning the value and the unconsumed rest. -/
def parseValue : Nat → List Char → Option (Json × List Char)
  | 0, _ => none
  | f+1, s0 =>
    match skipWs s0 with
    | [] => none
    | c :: s =>
      if c == '{' then
        match skipWs s with
        | '}' :: s1 => some (.obj [], s1)
        | s1 => match parseMembersF (fun t => parseValue f t) f s1 with
                | some (kvs, rest) => some (.obj kvs, rest)
                | none => none
      else if c == '[' then
        match skipWs s with
        | ']' :: s1 => some (.arr [], s1)
        | s1 => match parseElemsF (fun t => parseValue f t) f s1 with
                | some (vs, rest) => some (.arr vs, rest)
                | none => none
      else if c == '"' then
        match parseStringBody s with
        | some (content, rest) => some (.str (String.mk content), rest)
        | none => none
      else if c == 't' then
        match s with
        | 'r' :: 'u' :: 'e' :: rest => some (.bool true, rest)
        | _ => none
      else if c == 'f' then
        match s with
        | 'a' :: 'l' :: 's' :: 'e' :: rest => some (.bool false, rest)
        | _ => none
      else if c == 'n' then
        match s with
        | 'u' :: 'l' :: 'l' :: rest => some (.null, rest)
        | _ => none
      else
        match parseNumberLex (c :: s) with
        | some (lex, rest) => some (.num (String.mk lex), rest)
        | none => none

/-- `JSON.parse`: parse one value and require only whitespace after it;
`none` models a thrown `SyntaxError`. -/
def jsonParse (s : String) : Option Json :=
  match parseValue (s.data.length + 1) s.data with
  | some (v, rest) => if (skipWs rest).isEmpty then some v else none
  | none => none

/-- Field lookup in parsed-object members; a later duplicate key wins, as
for JavaScript object literals. -/
def jsObjGet (kvs : List (String × Json)) (k : String) : Option Json :=
  kvs.foldl (fun acc p => if p.1 == k then some p.2 else acc) none

/-- Whether a string is the decimal form of a natural number (an array
index property name). -/
def asIndex (k : String) : Option Nat :=
  if k.data ≠ [] && k.data.all (fun c : Char => c.isDigit) then some (digitsToNat k.data)
  else none

/-- Property read `j[k]` on a non-`undefined`, non-`null` JavaScript value:
an object looks the key up; an array answers `length` and index
properties; a string answers `length` and indexing; every other property
of a primitive is `undefined`.  `none` is `undefined`. -/
def jsGetProp (j : Json) (k : String) : Option Json :=
  match j with
  | .obj kvs => jsObjGet kvs k
  | .arr xs =>
    if k == "length" then some (.num (toString xs.length))
    else match asIndex k with
         | some i => xs.get? i
         | none => none
  | .str s =>
    if k == "length" then some (.num (toString s.length))
    else match asIndex k with
         | some i => (s.data.get? i).map (fun c => .str (String.mk [c]))
         | none => none
  | _ => none

/-- JavaScript truthiness of a parsed JSON value.  A number is falsy
exactly when its mantissa has no nonzero digit (`0`, `-0`, `0.00`, `0e9`). -/
def jsTruthy (j : Json) : Bool :=
  match j with
  | .null => false
  | .bool b => b
  | .str s => !(s == "")
  | .num lex => (lex.data.takeWhile (fun c : Char => !(c == 'e' || c == 'E'))).any
      (fun c => c.isDigit && !(c == '0'))
  | .arr _ => true
  | .obj _ => true

/-- Truthiness of a possibly `undefined` value. -/
def jsTruthyO (v : Option Json) : Bool :=
  match v with
  | none => false
  | some j => jsTruthy j

/-- Property access `j.k` on a JavaScript value: `null` has no properties
(`TypeError`), everything else reads the property. -/
def jsPropJ (j : Json) (k : String) : Except JsError (Option Json) :=
  match j with
  | .null => .error .typeError
  | _ => .ok (jsGetProp j k)

/-- Property access `v.k` on a possibly `undefined` value: accessing a
property of `undefined` or `null` throws `TypeError`. -/
def jsPropO (v : Option Json) (k : String) : Except JsError (Option Json) :=
  match v with
  | none => .error .typeError
  | some j => jsPropJ j k

/-- Optional chaining `v?.k`: `undefined`/`null` short-circuit to
`undefined` instead of throwing. -/
def jsOptChain (v : Option Json) (k : String) : Option Json :=
  match v with
  | none => none
  | some .null => none
  | some j => jsGetProp j k

/-- The `in` operator `k in j`: property-existence test on an object or an
array; applying it to a primitive throws `TypeError`. -/
def jsInOp (k : String) (j : Json) : Except JsError Bool :=
  match j with
  | .obj kvs => .ok (kvs.any (fun p => p.1 == k))
  | .arr xs =>
    .ok ((k == "length") || (match asIndex k with
                             | some i => i < xs.length
                             | none => false))
  | _ => .error .typeError

/-- Indexing `v[i]` (numeric literal index) on a possibly `undefined`
value; `undefined`/`null` throw, primitives give `undefined`. -/
def jsIndexO (v : Option Json) (i : Nat) : Except JsError (Option Json) :=
  jsPropO v (toString i)

/-- `v[v.length - 1]` as the source writes it for thumbnail lists: throws
on `undefined`/`null`, takes the last element of an array (an empty array
gives `undefined` via index `-1`), the last character of a string, and
`undefined` on other values (their `length` is `undefined`, so the index
is `NaN`). -/
def jsLastO (v : Option Json) : Except JsError (Option Json) :=
  match v with
  | none => .error .typeError
  | some .null => .error .typeError
  | some (.arr xs) => .ok (if xs.isEmpty then none else xs.getLast?)
  | some (.str s) => .ok ((s.data.getLast?).map (fun c => .str (String.mk [c])))
  | some _ => .ok none

/-- Nullish coalescing `v ?? d`. -/
def jsCoalesce (v : Option Json) (d : Json) : Json :=
  match v with
  | none => d
  | some .null => d
  | some j => j

/-- `Array.prototype.map` with a callback that can throw. -/
def mapE (f : α → Except JsError β) : List α → Except JsError (List β)
  | [] => .ok []
  | x :: xs =>
    match f x with
    | .error e => .error e
    | .ok y =>
      match mapE f xs with
      | .error e => .error e
      | .ok ys => .ok (y :: ys)

/-- `Array.prototype.filter` with a callback that can throw. -/
def filterE (p : α → Except JsError Bool) : List α → Except JsError (List α)
  | [] => .ok []
  | x :: xs =>
    match p x with
    | .error e => .error e
    | .ok b =>
      match filterE p xs with
      | .error e => .error e
      | .ok ys => .ok (if b then x :: ys else ys)

/-- `Array.prototype.find` with a callback that can throw. -/
def findE (p : α → Except JsError Bool) : List α → Except JsError (Option α)
  | [] => .ok none
  | x :: xs =>
    match p x with
    | .error e => .error e
    | .ok true => .ok (some x)
    | .ok false => findE p xs

/-- `Array.prototype.some` with a callback that can throw
(short-circuiting, like the JavaScript original). -/
def anyE (p : α → Except JsError Bool) : List α → Except JsError Bool
  | [] => .ok false
  | x :: xs =>
    match p x with
    | .error e => .error e
    | .ok true => .ok true
    | .ok false => anyE p xs

/-- One transcript line (`TranscriptResponse` in the source): field order
is the construction order `text`, `duration`, `offset`, `lang`. -/
structure TranscriptResponse where
  text : String
  duration : JsNumber
  offset : JsNumber
  lang : Option String
deriving DecidableEq

/-- Scan for text up to (and consuming) the character `stop`; fails when
`stop` does not occur. -/
def takeUntil (stop : Char) : List Char → Option (List Char × List Char)
  | [] => none
  | c :: s =>
    if c == stop then some ([], s)
    else
      match takeUntil stop s with
      | some (content, rest) => some (c :: content, rest)
      | none => none

/-- Drop the literal prefix `pre` from `s` (case-sensitive). -/
def dropLit : List Char → List Char → Option (List Char)
  | [], s => some s
  | _, [] => none
  | p :: ps, c :: s => if c == p then dropLit ps s else none

/-- One match of `RE_XML_TRANSCRIPT`
(`/<text start="([^"]*)" dur="([^"]*)">([^<]*)<\/text>/g`) anchored at the
start of `s`: the three capture groups and the rest after the match.  Each
capture is a negated single-character class followed by a required literal,
so matching is deterministic. -/
def matchTextElem (s : List Char) : Option ((List Char × List Char × List Char) × List Char) :=
  match dropLit "<text start=\"".data s with
  | none => none
  | some s1 =>
    match takeUntil '"' s1 with
    | none => none
    | some (startAttr, s2) =>
      match dropLit " dur=\"".data s2 with
      | none => none
      | some s3 =>
        match takeUntil '"' s3 with
        | none => none
        | some (durAttr, s4) =>
          match dropLit ">".data s4 with
          | none => none
          | some s5 =>
            match takeUntil '<' s5 with
            | none => none
            | some (body, s6) =>
              match dropLit "/text>".data s6 with
              | none => none
              | some s7 => some ((startAttr, durAttr, body), s7)

/-- Fueled scan of `String.prototype.matchAll(RE_XML_TRANSCRIPT)`:
leftmost matches, non-overlapping, continuing after each match. -/
def scanXmlGo : Nat → List Char → List (List Char × List Char × List Char)
  | 0, _ => []
  | f+1, s =>
    match s with
    | [] => []
    | c :: s1 =>
      match matchTextElem (c :: s1) with
      | some (m, rest) => m :: scanXmlGo f rest
      | none => scanXmlGo f s1

/-- All matches of `RE_XML_TRANSCRIPT` in a caption-feed body, in document
order. -/
def xmlMatches (body : String) : List (List Char × List Char × List Char) :=
  scanXmlGo (body.data.length + 1) body.data

/-- Lines 161-167 of the source: `[...transcriptBody.matchAll(RE_XML_TRANSCRIPT)]`
mapped to `{ text: m[3], duration: parseFloat(m[2]), offset: parseFloat(m[1]),
lang: params.get("lang") }`. -/
def parseTranscriptBody (body : String) (langParam : Option String) : List TranscriptResponse :=
  (xmlMatches body).map (fun m =>
    { text := String.mk m.2.2
      duration := jsParseFloat (String.mk m.2.1)
      offset := jsParseFloat (String.mk m.1)
      lang := langParam })

/-- Regular expressions, just rich enough for `RE_YOUTUBE`: empty, a
single-character class, concatenation, ordered alternation and greedy
star. -/
inductive Re where
  | eps : Re
  | cls : (Char → Bool) → Re
  | seq : Re → Re → Re
  | alt : Re → Re → Re
  | star : Re → Re

/-- Candidate suffixes after a greedy star over body matcher `m`, in
JavaScript backtracking order (longest expansion first).  Fuel bounds the
number of iterations; every class in `RE_YOUTUBE` consumes a character, so
`length + 1` iterations are always enough. -/
def starMs (m : List Char → List (List Char)) : Nat → List Char → List (List Char)
  | 0, s => [s]
  | f+1, s => ((m s).flatMap fun s2 => starMs m f s2) ++ [s]

/-- All suffixes left after matching `r` against a prefix of `s`, in the
order a backtracking engine (JavaScript `RegExp`) explores them:
alternation is left first, star is greedy. -/
def rmatches : Re → List Char → List (List Char)
  | .eps, s => [s]
  | .cls _, [] => []
  | .cls p, c :: s => if p c then [s] else []
  | .seq a b, s => (rmatches a s).flatMap fun s2 => rmatches b s2
  | .alt a b, s => rmatches a s ++ rmatches b s
  | .star r, s => starMs (fun s2 => rmatches r s2) (s.length + 1) s

/-- First success of `f` over a list, in order: how a backtracking engine
commits to the first prefix whose continuation also matches. -/
def firstSome (f : α → Option β) : List α → Option β
  | [] => none
  | x :: xs =>
    match f x with
    | some y => some y
    | none => firstSome f xs

/-- One pattern character of `RE_YOUTUBE` under its `i` flag: a lowercase
letter compares case-insensitively, any other pattern character exactly
(ECMAScript canonicalisation leaves non-letters unchanged). -/
def ciSat (p c : Char) : Bool :=
  if 'a' ≤ p && p ≤ 'z' then c.toLower == p else c == p

/-- The single-character regex for one pattern character. -/
def ciChar (p : Char) : Re :=
  .cls (fun c => ciSat p c)

/-- A case-insensitive literal word. -/
def ciLit (w : String) : Re :=
  w.data.foldr (fun c r => .seq (ciChar c) r) .eps

/-- The predicate of `.` in a JavaScript regex without the `s` flag:
anything but a LineTerminator. -/
def dotP (c : Char) : Bool :=
  !((c == '\n') || (c == '\r') || (c == '\u2028') || (c == '\u2029'))

/-- `.` as a regex. -/
def reDot : Re :=
  .cls dotP

/-- The predicate of `[^\/]`. -/
def notSlashP (c : Char) : Bool :=
  !(c == '/')

/-- `[^\/]` as a regex. -/
def notSlash : Re :=
  .cls notSlashP

/-- The predicate of `[?&]`. -/
def qAmpP (c : Char) : Bool :=
  (c == '?') || (c == '&')

/-- `[?&]` as a regex. -/
def qOrAmp : Re :=
  .cls qAmpP

/-- `r+` (greedy). -/
def rePlus (r : Re) : Re :=
  .seq r (.star r)

/-- `r?` (greedy). -/
def reOpt (r : Re) : Re :=
  .alt r .eps

/-- The character class of the capture group of `RE_YOUTUBE`:
`[^"&?\/\s]`. -/
def idChar (c : Char) : Bool :=
  !((c == '"') || (c == '&') || (c == '?') || (c == '/') || jsWhitespace c)

/-- The first alternative after `youtube.com/`: `[^\/]+\/.+\/`. -/
def reAltA : Re :=
  .seq (rePlus notSlash) (.seq (ciChar '/') (.seq (rePlus reDot) (ciChar '/')))

/-- The second alternative after `youtube.com/`: `(?:v|e(?:mbed)?)\/`. -/
def reAltB : Re :=
  .seq (.alt (ciChar 'v') (.seq (ciChar 'e') (reOpt (ciLit "mbed")))) (ciChar '/')

/-- The third alternative after `youtube.com/`: `.*[?&]v=`. -/
def reAltC : Re :=
  .seq (.star reDot) (.seq qOrAmp (.seq (ciChar 'v') (ciChar '=')))

/-- Everything of `RE_YOUTUBE` before its capture group:
`(?:youtube\.com\/(?:[^\/]+\/.+\/|(?:v|e(?:mbed)?)\/|.*[?&]v=)|youtu\.be\/)`
(with the `i` flag). -/
def reYoutubeBefore : Re :=
  .alt
    (.seq (ciLit "youtube.com/") (.alt reAltA (.alt reAltB reAltC)))
    (ciLit "youtu.be/")

/-- All suffixes of a list, shortest first: the candidate set a greedy
star over single-character classes leaves on a fully matching string. -/
def sufs : List Char → List (List Char)
  | [] => [[]]
  | c :: s => sufs s ++ [c :: s]

/-- The capture group `([^"&?\/\s]{11})` at a given suffix: exactly the
next eleven characters, all in the class. -/
def captureIdAt (s : List Char) : Option (List Char) :=
  let c := s.take 11
  if c.length = 11 && c.all idChar then some c else none

/-- Try a full `RE_YOUTUBE` match starting exactly at `s`: explore the
prefix's suffixes in backtracking order and take the first at which the
capture group matches. -/
def tryMatchAt (s : List Char) : Option (List Char) :=
  firstSome captureIdAt (rmatches reYoutubeBefore s)

/-- `videoId.match(RE_YOUTUBE)` capture group 1: the leftmost starting
position wins, as for a non-global JavaScript regex. -/
def reYoutubeCapture : List Char → Option (List Char)
  | [] => tryMatchAt []
  | c :: s =>
    match tryMatchAt (c :: s) with
    | some m => some m
    | none => reYoutubeCapture s

/-- `retrieveVideoId` from the source: an 11-character input is returned
unchanged; otherwise the first `RE_YOUTUBE` capture; otherwise the base
`YoutubeTranscriptError` ("Impossible to retrieve Youtube video ID."),
the spec's `InvalidIdentifier`. -/
def retrieveVideoId (videoId : String) : Except JsError String :=
  if videoId.length = 11 then .ok videoId
  else
    match reYoutubeCapture videoId.data with
    | some m => .ok (String.mk m)
    | none => .error .invalidIdentifier

/-- `VideoDetails` as actually built at runtime: each field is whatever
JavaScript value the nested lookup produced (possibly `undefined`). -/
structure VideoDetails where
  title : Option Json
  desc : Option Json
  ownerName : Option Json
  ownerUrl : Option Json

/-- `RelatedVideo` as actually built at runtime, fields in construction
order. -/
structure RelatedVideo where
  videoId : Option Json
  title : Option Json
  thumbnailUrl : Option Json
  lengthText : Json
  channelThumbnailUrl : Option Json
  viewCount : JsNumber
  channelId : Option Json
  channelText : Option Json

/-- `VideoInfo`: the `captionTracks` member is stored as the raw
JavaScript value taken from the parsed caption JSON (the code does not
validate that it is an array before returning it). -/
structure VideoInfo where
  videoDetails : Option VideoDetails
  captionTracks : Json
  relatedVideos : List RelatedVideo

/-- `VideoTranscript`. -/
structure VideoTranscript where
  videoDetails : Option VideoDetails
  transcript : List TranscriptResponse
  relatedVideos : List RelatedVideo

/-- `TranscriptConfig`. -/
structure TranscriptConfig where
  lang : Option String

/-- The language hint as the source tests it: `config?.lang` is truthy
exactly when `config` is present and `lang` is a nonempty string. -/
def cfgLang (config : Option TranscriptConfig) : Option String :=
  match config with
  | some c =>
    match c.lang with
    | some l => if l = "" then none else some l
    | none => none
  | none => none

/-- `getTwoColumnWatchNextResults` from the source: locate
`"twoColumnWatchNextResults":` and the first `},"currentVideoEndpoint":`
after it; absence of either gives `undefined`; otherwise the substring
between marker end and finish-marker start goes through `JSON.parse`
*unguarded*, so an invalid substring is a thrown `SyntaxError`. -/
def getTwoColumnWatchNextResults (body : String) : Except JsError (Option Json) :=
  let stringStart := "\"twoColumnWatchNextResults\":"
  let stringFinish := "\x7d,\"currentVideoEndpoint\":"
  match jsIndexOf body.data stringStart.data with
  | none => .ok none
  | some indexStart =>
    match jsIndexOfFrom body.data stringFinish.data indexStart with
    | none => .ok none
    | some indexFinish =>
      match jsonParse (String.mk (jsSubstring body.data (indexStart + stringStart.length) indexFinish)) with
      | some v => .ok (some v)
      | none => .error .syntaxError

/-- The callback `item => !!item.videoSecondaryInfoRenderer`. -/
def secondaryPred (item : Json) : Except JsError Bool :=
  match jsPropJ item "videoSecondaryInfoRenderer" with
  | .error e => .error e
  | .ok v => .ok (jsTruthyO v)

/-- The callback `item => !!item.videoPrimaryInfoRenderer`. -/
def primaryPred (item : Json) : Except JsError Bool :=
  match jsPropJ item "videoPrimaryInfoRenderer" with
  | .error e => .error e
  | .ok v => .ok (jsTruthyO v)

/-- `.filter`/`.find`/`.some`/`.map` receiver check: calling an array
method on `undefined`, `null`, or a non-array value throws `TypeError`. -/
def asArrayE (v : Option Json) : Except JsError (List Json) :=
  match v with
  | some (.arr xs) => .ok xs
  | _ => .error .typeError

/-- `getVideoDetails` from the source: `undefined` when there is no
watch-next data or no (truthy) secondary-info renderer; otherwise the four
fields are read through unguarded nested accesses (each can throw
`TypeError`), in object-literal order `title`, `desc`, `ownerName`,
`ownerUrl`. -/
def getVideoDetails (body : String) : Except JsError (Option VideoDetails) := do
  let data ← getTwoColumnWatchNextResults body
  match data with
  | none => .ok none
  | some d =>
    if !(jsTruthy d) then .ok none
    else do
      let r1 ← jsPropJ d "results"
      let r2 ← jsPropO r1 "results"
      let contents ← jsPropO r2 "contents"
      let items ← asArrayE contents
      let fs ← findE secondaryPred items
      let vsir := jsOptChain fs "videoSecondaryInfoRenderer"
      match vsir with
      | none => .ok none
      | some v =>
        if !(jsTruthy v) then .ok none
        else do
          let pf ← findE primaryPred items
          let t1 ← jsPropO pf "videoPrimaryInfoRenderer"
          let t2 ← jsPropO t1 "title"
          let t3 ← jsPropO t2 "runs"
          let t4 ← jsIndexO t3 0
          let title ← jsPropO t4 "text"
          let d1 ← jsPropJ v "attributedDescription"
          let desc ← jsPropO d1 "content"
          let o1 ← jsPropJ v "owner"
          let o2 ← jsPropO o1 "videoOwnerRenderer"
          let o3 ← jsPropO o2 "title"
          let o4 ← jsPropO o3 "runs"
          let o5 ← jsIndexO o4 0
          let ownerName ← jsPropO o5 "text"
          let o6 ← jsPropO o5 "navigationEndpoint"
          let o7 ← jsPropO o6 "commandMetadata"
          let o8 ← jsPropO o7 "webCommandMetadata"
          let ownerUrl ← jsPropO o8 "url"
          .ok (some ⟨title, desc, ownerName, ownerUrl⟩)

/-- The filter callback
`item => item.compactVideoRenderer && item.compactVideoRenderer.videoId !== videoId`:
falsy renderer fails the filter; otherwise the strict inequality against
the raw `videoId` *argument* (be it an id or a whole URL) decides. -/
def relatedPred (videoId : String) (item : Json) : Except JsError Bool := do
  let cvr ← jsPropJ item "compactVideoRenderer"
  if !(jsTruthyO cvr) then pure false
  else do
    let cvr2 ← jsPropJ item "compactVideoRenderer"
    let vid ← jsPropO cvr2 "videoId"
    match vid with
    | some (.str s) => pure (!(s == videoId))
    | _ => pure true

/-- `viewCount: convertViewCount(item.viewCountText.simpleText)` at
runtime: a falsy argument gives `0`, a string is converted, and a truthy
non-string has no `.replace`, so it throws `TypeError`. -/
def convertViewCountJs (st : Option Json) : Except JsError JsNumber :=
  match st with
  | none => .ok (convertViewCount none)
  | some (.str s) => .ok (convertViewCount (some s))
  | some j => if jsTruthy j then .error .typeError else .ok (.val (qnInt 0))

/-- The mapping callback building one `RelatedVideo` from a (truthy)
`compactVideoRenderer` value, fields in object-literal order; every
unguarded nested access can throw `TypeError`. -/
def mkRelatedVideo (cvr : Option Json) : Except JsError RelatedVideo := do
  let vid ← jsPropO cvr "videoId"
  let t1 ← jsPropO cvr "title"
  let title ← jsPropO t1 "simpleText"
  let th ← jsPropO cvr "thumbnail"
  let ths ← jsPropO th "thumbnails"
  let le ← jsLastO ths
  let thumbnailUrl ← jsPropO le "url"
  let lt ← jsPropO cvr "lengthText"
  let lengthText := jsCoalesce (jsOptChain lt "simpleText") (.str "00:00")
  let ct ← jsPropO cvr "channelThumbnail"
  let cts ← jsPropO ct "thumbnails"
  let e0 ← jsIndexO cts 0
  let channelThumbnailUrl ← jsPropO e0 "url"
  let vct ← jsPropO cvr "viewCountText"
  let st ← jsPropO vct "simpleText"
  let viewCount ← convertViewCountJs st
  let lb ← jsPropO cvr "longBylineText"
  let runs ← jsPropO lb "runs"
  let r0 ← jsIndexO runs 0
  let ne ← jsPropO r0 "navigationEndpoint"
  let cm ← jsPropO ne "commandMetadata"
  let wm ← jsPropO cm "webCommandMetadata"
  let channelId ← jsPropO wm "url"
  let channelText ← jsPropO r0 "text"
  .ok ⟨vid, title, thumbnailUrl, lengthText, channelThumbnailUrl, viewCount, channelId, channelText⟩

/-- `getRelatedVideos` from the source: no (truthy) watch-next data or a
falsy `secondaryResults.secondaryResults.results` chain gives `[]`;
otherwise filter on `relatedPred`, map to the renderers, and map each to a
`RelatedVideo` (any missing required nested field aborts the whole call
with `TypeError`). -/
def getRelatedVideos (body : String) (videoId : String) : Except JsError (List RelatedVideo) := do
  let data ← getTwoColumnWatchNextResults body
  if !(jsTruthyO data) then .ok []
  else do
    let chain := jsOptChain (jsOptChain (jsOptChain data "secondaryResults") "secondaryResults") "results"
    if !(jsTruthyO chain) then .ok []
    else do
      let items ← asArrayE chain
      let kept ← filterE (relatedPred videoId) items
      let cvrs ← mapE (fun item => jsPropJ item "compactVideoRenderer") kept
      mapE mkRelatedVideo cvrs

/-- The caption-JSON text the source selects:
`videoPageBody.split('"captions":')[1].split(',"videoDetails')[0]`, i.e.
the text between the first and second occurrence of `"captions":` (or to
the end), cut at the first `,"videoDetails` inside it; `none` when the
`"captions":` split produced at most one part. -/
def captionBlockRaw (body : String) : Option String :=
  match jsSplitSep body "\"captions\":" with
  | _ :: p1 :: _ => some (String.mk ((jsSplitGo ",\"videoDetails".data (p1.length + 1) p1).headD p1))
  | _ => none

/-- `fetchVideoInfo` from the source, with the fetched page body passed in
as `body`.  Order matters: `getVideoDetails` and `getRelatedVideos` run
*before* the caption-marker split, so a throwing watch-next extraction
preempts every later classification. -/
def fetchVideoInfo (videoId : String) (_config : Option TranscriptConfig) (body : String) :
    Except JsError VideoInfo := do
  let _identifier ← retrieveVideoId videoId
  let videoDetails ← getVideoDetails body
  let relatedVideos ← getRelatedVideos body videoId
  match captionBlockRaw body with
  | none =>
    if jsIncludes body "class=\"g-recaptcha\"" then .error .tooManyRequests
    else if !(jsIncludes body "\"playabilityStatus\":") then .error (.videoUnavailable videoId)
    else .ok ⟨videoDetails, .arr [], relatedVideos⟩
  | some blk =>
    let captions := jsOptChain (jsonParse (removeFirstNewline blk)) "playerCaptionsTracklistRenderer"
    match captions with
    | none => .ok ⟨videoDetails, .arr [], relatedVideos⟩
    | some c =>
      if !(jsTruthy c) then .ok ⟨videoDetails, .arr [], relatedVideos⟩
      else do
        let has ← jsInOp "captionTracks" c
        if !has then .error (.notAvailable videoId)
        else .ok ⟨videoDetails, (jsGetProp c "captionTracks").getD .null, relatedVideos⟩

/-- The `.some`/`.find` callback
`track => track.languageCode === config?.lang` (with `config?.lang` a
nonempty string in the branch where it runs): strict equality holds only
for an equal string value. -/
def trackMatches (lang : String) (t : Json) : Except JsError Bool := do
  let lc ← jsPropJ t "languageCode"
  match lc with
  | some (.str s) => pure (s == lang)
  | _ => pure false

/-- `fetchTranscript` from the source.  `body` is the watch-page body the
page fetch would return and `getTr` stands for
`this.getTranscript(transcriptURL)` (the caption-feed fetch); a
`transcriptURL` that is not a string is a `TypeError` (`new URL` on
`undefined` throws before any fetch). -/
def fetchTranscript (videoId : String) (config : Option TranscriptConfig) (body : String)
    (getTr : String → Except JsError (List TranscriptResponse)) :
    Except JsError VideoTranscript := do
  let videoTrack ← fetchVideoInfo videoId config body
  match cfgLang config with
  | some lang => do
    let tracks ← asArrayE (some videoTrack.captionTracks)
    let matched ← anyE (trackMatches lang) tracks
    if !matched then do
      let langs ← mapE (fun t => jsPropJ t "languageCode") tracks
      .error (.languageNotAvailable lang langs videoId)
    else do
      let found ← findE (trackMatches lang) tracks
      let u ← jsPropO found "baseUrl"
      match u with
      | some (.str url) => do
        let transcript ← getTr url
        .ok ⟨videoTrack.videoDetails, transcript, videoTrack.relatedVideos⟩
      | _ => .error .typeError
  | none => do
    let e ← jsIndexO (some videoTrack.captionTracks) 0
    let u ← jsPropO e "baseUrl"
    match u with
    | some (.str url) => do
      let transcript ← getTr url
      .ok ⟨videoTrack.videoDetails, transcript, videoTrack.relatedVideos⟩
    | _ => .error .typeError

/-- The caption JSON value `fetchVideoInfo` actually parses (before the
`playerCaptionsTracklistRenderer` navigation): the selected caption block
text with its first newline removed, through the guarded `JSON.parse`. -/
def parsedCaptionJson (body : String) : Option Json :=
  match captionBlockRaw body with
  | none => none
  | some blk => jsonParse (removeFirstNewline blk)

/-- Concrete watch-page body for the related-videos analysis: a watch-next
block whose sidebar contains the subject video itself. -/
def relatedFixtureBody : String :=
  "\"twoColumnWatchNextResults\":\x7b\"results\":\x7b\"results\":\x7b\"contents\":[]\x7d\x7d,\"secondaryResults\":\x7b\"secondaryResults\":\x7b\"results\":[\x7b\"compactVideoRenderer\":\x7b\"videoId\":\"abcdefghijk\",\"title\":\x7b\"simpleText\":\"T\"\x7d,\"thumbnail\":\x7b\"thumbnails\":[\x7b\"url\":\"u1\"\x7d]\x7d,\"channelThumbnail\":\x7b\"thumbnails\":[\x7b\"url\":\"cu\"\x7d]\x7d,\"viewCountText\":\x7b\"simpleText\":\"1 views\"\x7d,\"longBylineText\":\x7b\"runs\":[\x7b\"text\":\"Ch\",\"navigationEndpoint\":\x7b\"commandMetadata\":\x7b\"webCommandMetadata\":\x7b\"url\":\"/ch\"\x7d\x7d\x7d\x7d]\x7d\x7d\x7d]\x7d\x7d,\"playabilityStatus\":\"x\"\x7d\x7d,\"currentVideoEndpoint\":"

theorem ebind_ok {α β : Type} (a : α) (f : α → Except JsError β) :
    ((.ok a : Except JsError α) >>= f) = f a := rfl

theorem ebind_error {α β : Type} (e : JsError) (f : α → Except JsError β) :
    ((.error e : Except JsError α) >>= f) = .error e := rfl

theorem epure_eq {α : Type} (a : α) : (pure a : Except JsError α) = .ok a := rfl

theorem ebind_ok_elim {α β : Type} {x : Except JsError α} {f : α → Except JsError β} {r : β}
    (h : (x >>= f) = .ok r) : ∃ a, x = .ok a ∧ f a = .ok r := by
  cases x with
  | ok a => exact ⟨a, rfl, h⟩
  | error e => exact Except.noConfusion h

theorem anyE_eq_false {α : Type} (p : α → Except JsError Bool) (xs : List α)
    (h : ∀ x ∈ xs, p x = .ok false) : anyE p xs = .ok false := by
  induction xs with
  | nil => rfl
  | cons x xs ih =>
    simp only [anyE, h x (by simp)]
    exact ih (fun y hy => h y (by simp [hy]))

theorem mapE_eq_map {α β : Type} (f : α → Except JsError β) (g : α → β) (xs : List α)
    (h : ∀ x ∈ xs, f x = .ok (g x)) : mapE f xs = .ok (xs.map g) := by
  induction xs with
  | nil => rfl
  | cons x xs ih =>
    simp only [mapE, h x (by simp), ih (fun y hy => h y (by simp [hy])), List.map]

theorem filterE_mem {α : Type} {p : α → Except JsError Bool} {xs ys : List α}
    (h : filterE p xs = .ok ys) : ∀ y ∈ ys, y ∈ xs ∧ p y = .ok true := by
  induction xs generalizing ys with
  | nil =>
    simp only [filterE] at h
    cases h
    intro y hy
    exact absurd hy (by simp)
  | cons x xs ih =>
    intro y hy
    simp only [filterE] at h
    cases hp : p x with
    | error e => rw [hp] at h; exact Except.noConfusion h
    | ok b =>
      rw [hp] at h
      cases hrec : filterE p xs with
      | error e => rw [hrec] at h; exact Except.noConfusion h
      | ok zs =>
        rw [hrec] at h
        cases h
        cases b with
        | true =>
          rcases List.mem_cons.mp hy with rfl | hmem
          · exact ⟨by simp, hp⟩
          · obtain ⟨h1, h2⟩ := ih hrec y hmem
            exact ⟨by simp [h1], h2⟩
        | false =>
          obtain ⟨h1, h2⟩ := ih hrec y hy
          exact ⟨by simp [h1], h2⟩

theorem mapE_mem {α β : Type} {f : α → Except JsError β} {xs : List α} {ys : List β}
    (h : mapE f xs = .ok ys) : ∀ y ∈ ys, ∃ x ∈ xs, f x = .ok y := by
  induction xs generalizing ys with
  | nil =>
    simp only [mapE] at h
    cases h
    intro y hy
    exact absurd hy (by simp)
  | cons x xs ih =>
    intro y hy
    simp only [mapE] at h
    cases hf : f x with
    | error e => rw [hf] at h; exact Except.noConfusion h
    | ok b =>
      rw [hf] at h
      cases hrec : mapE f xs with
      | error e => rw [hrec] at h; exact Except.noConfusion h
      | ok zs =>
        rw [hrec] at h
        cases h
        rcases List.mem_cons.mp hy with rfl | hmem
        · exact ⟨x, by simp, hf⟩
        · obtain ⟨x2, hx2, hfx2⟩ := ih hrec y hmem
          exact ⟨x2, by simp [hx2], hfx2⟩

theorem jsSplitGo_ne_nil (sep : List Char) (f : Nat) (s : List Char) :
    jsSplitGo sep f s ≠ [] := by
  cases f with
  | zero => simp [jsSplitGo]
  | succ f =>
    cases h : findSep sep s with
    | none => simp [jsSplitGo, h]
    | some pr => simp [jsSplitGo, h]

theorem captionBlockRaw_eq_none_of (body : String)
    (h : findSep "\"captions\":".data body.data = none) : captionBlockRaw body = none := by
  simp [captionBlockRaw, jsSplitSep, jsSplitGo, h]

theorem captionBlockRaw_isSome_of (body : String) {pr : List Char × List Char}
    (h : findSep "\"captions\":".data body.data = some pr) :
    (captionBlockRaw body).isSome = true := by
  have hne := jsSplitGo_ne_nil "\"captions\":".data body.data.length pr.2
  simp only [captionBlockRaw, jsSplitSep, jsSplitGo, h]
  cases hgo : jsSplitGo "\"captions\":".data body.data.length pr.2 with
  | nil => exact absurd hgo hne
  | cons a t => simp

theorem jsOptChain_some (j : Json) (k : String) :
    jsOptChain (some j) k = jsGetProp j k := by
  cases j <;> rfl

theorem jsPropJ_of_ne_null {j : Json} (k : String) (h : j ≠ .null) :
    jsPropJ j k = .ok (jsGetProp j k) := by
  cases j <;> first | exact absurd rfl h | rfl

theorem not_includes_iff (s sep : String) :
    jsIncludes s sep = false ↔ findSep sep.data s.data = none := by
  unfold jsIncludes
  cases findSep sep.data s.data <;> simp

/-- C4: the caption-feed parser yields one segment per occurrence of the
`<text start="S" dur="D">TEXT</text>` pattern, in document order, with
`offset = parseFloat(S)`, `duration = parseFloat(D)` and the text verbatim;
malformed numeric attribute text gives NaN rather than an error; a body
with zero matching elements gives `[]`, never an error; and the feed
`<text start="1.5" dur="2.25">Hello</text>` gives exactly one segment
`Hello` at offset 3/2 with duration 9/4. -/
theorem c4_caption_feed_segments :
    (parseTranscriptBody "<text start=\"1.5\" dur=\"2.25\">Hello</text>" none =
      [⟨"Hello", .val ⟨9, 4⟩, .val ⟨3, 2⟩, none⟩]) ∧
    (parseTranscriptBody "<text start=\"oops\" dur=\"\">Hi</text>" none =
      [⟨"Hi", .nan, .nan, none⟩]) ∧
    (∀ body lang, parseTranscriptBody body lang =
      (xmlMatches body).map (fun m =>
        { text := String.mk m.2.2
          duration := jsParseFloat (String.mk m.2.1)
          offset := jsParseFloat (String.mk m.1)
          lang := lang })) ∧
    (∀ body lang, xmlMatches body = [] → parseTranscriptBody body lang = []) := by
  refine ⟨by decide, by decide, fun body lang => rfl, fun body lang h => ?_⟩
  simp [parseTranscriptBody, h]

/-- Witness for C4 at a concrete non-matching feed body. -/
theorem c4_caption_feed_segments_witness :
    xmlMatches "no timed text elements here" = [] ∧
    parseTranscriptBody "no timed text elements here" none = [] :=
  ⟨rfl, c4_caption_feed_segments.2.2.2 "no timed text elements here" none rfl⟩

theorem filter_digit_dot_nil (l : List Char) (h : ∀ c ∈ l, c.isDigit = false) :
    (l.filter fun c : Char => c.isDigit || c == '.').filter (fun c => !(c == '.')) = [] := by
  induction l with
  | nil => rfl
  | cons c t ih =>
    have hc := h c (by simp)
    have ht := ih (fun c' hc' => h c' (by simp [hc']))
    by_cases hdot : (c == '.') = true
    · simp [List.filter_cons, hc, hdot, ht]
    · simp [List.filter_cons, hc, hdot, ht]

/-- C7 fails as stated: `"views"` is unparseable (it has no digits), yet
`convertViewCount` returns NaN (from `parseInt("", 10)`), not `0`. -/
theorem c7_counterexample :
    convertViewCount (some "views") = .nan ∧ JsNumber.nan ≠ JsNumber.val (qnInt 0) :=
  ⟨rfl, by decide⟩

/-- C7 (amended): `"1,234 views"` maps to 1234 and absent input and the
empty string map to 0, but a *nonempty* input without any digit maps to
NaN (not 0): the digit-and-dot stripping leaves the empty string and
`parseInt('', 10)` is NaN. -/
theorem c7_amended :
    convertViewCount (some "1,234 views") = .val ⟨1234, 1⟩ ∧
    convertViewCount none = .val ⟨0, 1⟩ ∧
    convertViewCount (some "") = .val ⟨0, 1⟩ ∧
    (∀ s : String, s ≠ "" → (∀ c ∈ s.data, c.isDigit = false) →
      convertViewCount (some s) = .nan) := by
  refine ⟨by decide, rfl, rfl, fun s hne hnd => ?_⟩
  simp only [convertViewCount, if_neg hne, filter_digit_dot_nil s.data hnd]
  rfl

/-- Witness for C7 (amended) at the concrete input `"views"`. -/
theorem c7_amended_witness :
    ("views" : String) ≠ "" ∧ convertViewCount (some "views") = .nan :=
  ⟨by decide, c7_amended.2.2.2 "views" (by decide) (by decide)⟩

/-- C10: with no language hint and an assembled `VideoInfo` whose caption
track list is empty, `fetchTranscript` reads `.baseUrl` of the absent
first track and fails with a raw `TypeError`, not with a taxonomy error. -/
theorem c10_empty_tracks_type_error (videoId : String) (config : Option TranscriptConfig)
    (body : String) (getTr : String → Except JsError (List TranscriptResponse))
    (info : VideoInfo)
    (h1 : fetchVideoInfo videoId config body = .ok info)
    (h2 : info.captionTracks = .arr [])
    (h3 : cfgLang config = none) :
    fetchTranscript videoId config body getTr = .error .typeError := by
  simp only [fetchTranscript, h1, ebind_ok, h3, h2]
  rfl

/-- Witness for C10: a playable page body without any caption marker
assembles to an empty track list, and the no-hint call fails with the raw
type error. -/
theorem c10_empty_tracks_type_error_witness :
    fetchVideoInfo "abcdefghijk" none "\"playabilityStatus\":" = .ok ⟨none, .arr [], []⟩ ∧
    fetchTranscript "abcdefghijk" none "\"playabilityStatus\":" (fun _ => .ok []) =
      .error .typeError :=
  ⟨rfl, c10_empty_tracks_type_error "abcdefghijk" none "\"playabilityStatus\":"
    (fun _ => .ok []) ⟨none, .arr [], []⟩ rfl rfl rfl⟩

/-- C3 fails as stated: a body that contains the CAPTCHA marker *and* the
caption-block delimiter never reaches the CAPTCHA check (the split has two
parts), so `fetchVideoInfo` succeeds with an empty track list instead of
failing with `TooManyRequests`. -/
theorem c3_counterexample :
    jsIncludes "class=\"g-recaptcha\" \"captions\":\x7b\x7d" "class=\"g-recaptcha\"" = true ∧
    fetchVideoInfo "abcdefghijk" none "class=\"g-recaptcha\" \"captions\":\x7b\x7d" =
      .ok ⟨none, .arr [], []⟩ :=
  ⟨rfl, rfl⟩

/-- C3 (amended): a body containing the CAPTCHA marker yields
`TooManyRequests` provided the caption-block delimiter is absent and the
watch-next extraction (`getVideoDetails` / `getRelatedVideos`, which run
first) does not itself throw. -/
theorem c3_amended (videoId w : String) (config : Option TranscriptConfig) (body : String)
    (d : Option VideoDetails) (r : List RelatedVideo)
    (h0 : retrieveVideoId videoId = .ok w)
    (h1 : getVideoDetails body = .ok d)
    (h2 : getRelatedVideos body videoId = .ok r)
    (hcap : jsIncludes body "class=\"g-recaptcha\"" = true)
    (hnocb : jsIncludes body "\"captions\":" = false) :
    fetchVideoInfo videoId config body = .error .tooManyRequests := by
  have hnone : captionBlockRaw body = none :=
    captionBlockRaw_eq_none_of body ((not_includes_iff body "\"captions\":").mp hnocb)
  simp only [fetchVideoInfo, h0, h1, h2, ebind_ok, hnone, hcap, if_true]

/-- Witness for C3 (amended) at a concrete CAPTCHA body. -/
theorem c3_amended_witness :
    fetchVideoInfo "abcdefghijk" none "class=\"g-recaptcha\"" = .error .tooManyRequests :=
  c3_amended "abcdefghijk" "abcdefghijk" none "class=\"g-recaptcha\"" none []
    rfl rfl rfl rfl rfl

/-- C9 fails as stated: when both watch-next markers are present but the
substring between them is not valid JSON, the unguarded `JSON.parse`
throws and `fetchVideoInfo` propagates the raw `SyntaxError` instead of
degrading to an empty related-video list and absent details. -/
theorem c9_counterexample :
    fetchVideoInfo "abcdefghijk" none
      "\"twoColumnWatchNextResults\":@\x7d,\"currentVideoEndpoint\": \"playabilityStatus\":" =
      .error .syntaxError :=
  rfl

/-- C9 (amended): absence of either watch-next marker degrades to "no
watch-next data" (empty related videos, absent details, no hard failure);
but with both markers present and an invalid substring between them, the
unguarded parse makes `getTwoColumnWatchNextResults` and both its callers
throw a raw `SyntaxError`. -/
theorem c9_amended :
    (∀ body videoId, jsIndexOf body.data "\"twoColumnWatchNextResults\":".data = none →
      getTwoColumnWatchNextResults body = .ok none ∧
      getRelatedVideos body videoId = .ok [] ∧
      getVideoDetails body = .ok none) ∧
    (∀ body i, jsIndexOf body.data "\"twoColumnWatchNextResults\":".data = some i →
      jsIndexOfFrom body.data "\x7d,\"currentVideoEndpoint\":".data i = none →
      getTwoColumnWatchNextResults body = .ok none) ∧
    (∀ body videoId i j,
      jsIndexOf body.data "\"twoColumnWatchNextResults\":".data = some i →
      jsIndexOfFrom body.data "\x7d,\"currentVideoEndpoint\":".data i = some j →
      jsonParse (String.mk (jsSubstring body.data
        (i + "\"twoColumnWatchNextResults\":".length) j)) = none →
      getTwoColumnWatchNextResults body = .error .syntaxError ∧
      getRelatedVideos body videoId = .error .syntaxError ∧
      getVideoDetails body = .error .syntaxError) := by
  refine ⟨fun body videoId h => ?_, fun body i h1 h2 => ?_, fun body videoId i j h1 h2 h3 => ?_⟩
  · have hm : getTwoColumnWatchNextResults body = .ok none := by
      simp only [getTwoColumnWatchNextResults, h]
    refine ⟨hm, ?_, ?_⟩
    · simp only [getRelatedVideos, hm, ebind_ok]
      rfl
    · simp only [getVideoDetails, hm, ebind_ok]
  · simp only [getTwoColumnWatchNextResults, h1, h2]
  · have hm : getTwoColumnWatchNextResults body = .error .syntaxError := by
      simp only [getTwoColumnWatchNextResults, h1, h2, h3]
    refine ⟨hm, ?_, ?_⟩
    · simp only [getRelatedVideos, hm, ebind_error]
    · simp only [getVideoDetails, hm, ebind_error]

/-- Witness for C9 (amended) at concrete bodies: no markers at all, and
both markers with `@` between them. -/
theorem c9_amended_witness :
    (getRelatedVideos "no markers here" "abcdefghijk" = .ok [] ∧
      getVideoDetails "no markers here" = .ok none) ∧
    getTwoColumnWatchNextResults "\"twoColumnWatchNextResults\":@\x7d,\"currentVideoEndpoint\":" =
      .error .syntaxError :=
  ⟨⟨(c9_amended.1 "no markers here" "abcdefghijk" rfl).2.1,
    (c9_amended.1 "no markers here" "abcdefghijk" rfl).2.2⟩,
   (c9_amended.2.2 "\"twoColumnWatchNextResults\":@\x7d,\"currentVideoEndpoint\":"
      "abcdefghijk" 0 29 rfl rfl rfl).1⟩

/-- C8 fails as stated: this caption block contains two newlines, both
inside JSON string literals; with *all* newlines removed it is valid JSON
(so the claim predicts a successful parse, and then `NotAvailable`, since
the renderer object has no `captionTracks`), but `replace('\n', '')`
removes only the first newline, the remaining raw newline makes
`JSON.parse` fail, and the call returns an empty track list instead. -/
theorem c8_counterexample :
    captionBlockRaw
        "\"captions\":\x7b\"playerCaptionsTracklistRenderer\":\x7b\"a\n\":\"\nb\"\x7d\x7d,\"videoDetails\"" =
      some "\x7b\"playerCaptionsTracklistRenderer\":\x7b\"a\n\":\"\nb\"\x7d\x7d" ∧
    (jsonParse (removeAllNewlines
        "\x7b\"playerCaptionsTracklistRenderer\":\x7b\"a\n\":\"\nb\"\x7d\x7d")).isSome = true ∧
    parsedCaptionJson
        "\"captions\":\x7b\"playerCaptionsTracklistRenderer\":\x7b\"a\n\":\"\nb\"\x7d\x7d,\"videoDetails\"" =
      none ∧
    fetchVideoInfo "abcdefghijk" none
        "\"captions\":\x7b\"playerCaptionsTracklistRenderer\":\x7b\"a\n\":\"\nb\"\x7d\x7d,\"videoDetails\"" =
      .ok ⟨none, .arr [], []⟩ :=
  ⟨rfl, rfl, rfl, rfl⟩

/-- C8 (amended): the caption JSON that gets parsed is the split-selected
block text with only its *first* newline character removed; a block that
is valid JSON once that first newline is removed parses successfully, and
a string without newlines is left unchanged (later newlines are not
stripped, as the counterexample shows). -/
theorem c8_amended :
    (∀ body blk j, captionBlockRaw body = some blk →
      jsonParse (removeFirstNewline blk) = some j →
      parsedCaptionJson body = some j) ∧
    (∀ s : String, findSep ['\n'] s.data = none → removeFirstNewline s = s) ∧
    removeFirstNewline "a\nb\nc" = "ab\nc" := by
  refine ⟨fun body blk j h1 h2 => ?_, fun s h => ?_, rfl⟩
  · simp only [parsedCaptionJson, h1, h2]
  · simp only [removeFirstNewline, h]

/-- Witness for C8 (amended) at a concrete newline-free caption block. -/
theorem c8_amended_witness :
    parsedCaptionJson "\"captions\":\x7b\x7d,\"videoDetails\"" = some (.obj []) :=
  c8_amended.1 "\"captions\":\x7b\x7d,\"videoDetails\"" "\x7b\x7d" (.obj []) rfl rfl

set_option maxRecDepth 100000 in
/-- C2 fails as stated: with tracks `fr`, `en` (in that order) and request
`de`, the error carries the available languages in track order
`[fr, en]`, not the sorted list `[en, fr]`. -/
theorem c2_counterexample :
    fetchTranscript "abcdefghijk" (some ⟨some "de"⟩)
        "\"captions\":\x7b\"playerCaptionsTracklistRenderer\":\x7b\"captionTracks\":[\x7b\"languageCode\":\"fr\"\x7d,\x7b\"languageCode\":\"en\"\x7d]\x7d\x7d,\"videoDetails\""
        (fun _ => .ok []) =
      .error (.languageNotAvailable "de"
        [some (.str "fr"), some (.str "en")] "abcdefghijk") ∧
    [some (Json.str "fr"), some (Json.str "en")] ≠ [some (Json.str "en"), some (Json.str "fr")] :=
  ⟨rfl, by simp⟩

/-- C2 (amended): when a language is requested, the assembled track list
is an array, every track is a non-null value whose `languageCode` is not
the requested language, the call fails with `LanguageNotAvailable` — and
no other error kind — carrying the requested language, the raw `videoId`
argument, and the available language codes in track-list order (not
sorted). -/
theorem c2_amended (videoId lang : String) (config : Option TranscriptConfig) (body : String)
    (getTr : String → Except JsError (List TranscriptResponse))
    (info : VideoInfo) (ts : List Json)
    (h1 : fetchVideoInfo videoId config body = .ok info)
    (h2 : info.captionTracks = .arr ts)
    (h3 : cfgLang config = some lang)
    (h4 : ∀ t ∈ ts, t ≠ Json.null ∧ jsGetProp t "languageCode" ≠ some (.str lang)) :
    fetchTranscript videoId config body getTr =
      .error (.languageNotAvailable lang
        (ts.map (fun t => jsGetProp t "languageCode")) videoId) := by
  have hany : anyE (trackMatches lang) ts = .ok false := by
    apply anyE_eq_false
    intro t ht
    obtain ⟨hn, hne⟩ := h4 t ht
    simp only [trackMatches, jsPropJ_of_ne_null _ hn, ebind_ok]
    cases hg : jsGetProp t "languageCode" with
    | none => rfl
    | some v =>
      cases v with
      | str s =>
        have hs : s ≠ lang := by
          rintro rfl
          exact hne (by rw [hg])
        simp [epure_eq, hs]
      | null => rfl
      | bool b => rfl
      | num n => rfl
      | arr xs => rfl
      | obj kvs => rfl
  have hmap : mapE (fun t => jsPropJ t "languageCode") ts =
      .ok (ts.map fun t => jsGetProp t "languageCode") := by
    apply mapE_eq_map
    intro t ht
    exact jsPropJ_of_ne_null _ (h4 t ht).1
  simp only [fetchTranscript, h1, ebind_ok, h3, h2, asArrayE, hany, hmap]
  simp

set_option maxRecDepth 100000 in
/-- Witness for C2 (amended) at the concrete two-track body. -/
theorem c2_amended_witness :
    fetchTranscript "abcdefghijk" (some ⟨some "pt"⟩)
        "\"captions\":\x7b\"playerCaptionsTracklistRenderer\":\x7b\"captionTracks\":[\x7b\"languageCode\":\"fr\"\x7d,\x7b\"languageCode\":\"en\"\x7d]\x7d\x7d,\"videoDetails\""
        (fun _ => .ok []) =
      .error (.languageNotAvailable "pt"
        [some (.str "fr"), some (.str "en")] "abcdefghijk") := by
  have := c2_amended "abcdefghijk" "pt" (some ⟨some "pt"⟩)
    "\"captions\":\x7b\"playerCaptionsTracklistRenderer\":\x7b\"captionTracks\":[\x7b\"languageCode\":\"fr\"\x7d,\x7b\"languageCode\":\"en\"\x7d]\x7d\x7d,\"videoDetails\""
    (fun _ => .ok [])
    ⟨none, .arr [.obj [("languageCode", .str "fr")], .obj [("languageCode", .str "en")]], []⟩
    [.obj [("languageCode", .str "fr")], .obj [("languageCode", .str "en")]]
    rfl rfl rfl ?h4
  · exact this
  case h4 =>
    intro t ht
    rcases List.mem_cons.mp ht with rfl | ht2
    · exact ⟨by simp, by simp [jsGetProp, jsObjGet]⟩
    · rcases List.mem_singleton.mp ht2 with rfl
      exact ⟨by simp, by simp [jsGetProp, jsObjGet]⟩

/-- C1 fails as stated: this body has no `"captions":` marker and does
contain the CAPTCHA marker, yet the call fails with the raw `SyntaxError`
from the malformed watch-next block — `getVideoDetails` and
`getRelatedVideos` run before the CAPTCHA inspection — instead of
`TooManyRequests`. -/
theorem c1_counterexample :
    jsIncludes "\"twoColumnWatchNextResults\":@\x7d,\"currentVideoEndpoint\":class=\"g-recaptcha\""
      "\"captions\":" = false ∧
    jsIncludes "\"twoColumnWatchNextResults\":@\x7d,\"currentVideoEndpoint\":class=\"g-recaptcha\""
      "class=\"g-recaptcha\"" = true ∧
    fetchVideoInfo "abcdefghijk" none
      "\"twoColumnWatchNextResults\":@\x7d,\"currentVideoEndpoint\":class=\"g-recaptcha\"" =
      .error .syntaxError :=
  ⟨rfl, rfl, rfl⟩

/-- C1 (amended): provided the watch-next extraction does not itself throw
(`getVideoDetails` / `getRelatedVideos` succeed — they run first), a body
without the `"captions":` marker classifies as: CAPTCHA marker →
`TooManyRequests`; else no playability marker → `VideoUnavailable`; else a
`VideoInfo` with an empty caption-track list.  And a body whose selected
caption block parses (after the first-newline strip) to a
`playerCaptionsTracklistRenderer` object lacking a `captionTracks` key
fails with `NotAvailable`. -/
theorem c1_amended (videoId w : String) (config : Option TranscriptConfig) (body : String)
    (d : Option VideoDetails) (r : List RelatedVideo)
    (h0 : retrieveVideoId videoId = .ok w)
    (h1 : getVideoDetails body = .ok d)
    (h2 : getRelatedVideos body videoId = .ok r) :
    (jsIncludes body "\"captions\":" = false →
      ((jsIncludes body "class=\"g-recaptcha\"" = true →
          fetchVideoInfo videoId config body = .error .tooManyRequests) ∧
        (jsIncludes body "class=\"g-recaptcha\"" = false →
          jsIncludes body "\"playabilityStatus\":" = false →
          fetchVideoInfo videoId config body = .error (.videoUnavailable videoId)) ∧
        (jsIncludes body "class=\"g-recaptcha\"" = false →
          jsIncludes body "\"playabilityStatus\":" = true →
          fetchVideoInfo videoId config body = .ok ⟨d, .arr [], r⟩))) ∧
    (∀ blk j kvs, captionBlockRaw body = some blk →
      jsonParse (removeFirstNewline blk) = some j →
      jsGetProp j "playerCaptionsTracklistRenderer" = some (.obj kvs) →
      kvs.any (fun p => p.1 == "captionTracks") = false →
      fetchVideoInfo videoId config body = .error (.notAvailable videoId)) := by
  constructor
  · intro hnocb
    have hnone : captionBlockRaw body = none :=
      captionBlockRaw_eq_none_of body ((not_includes_iff body "\"captions\":").mp hnocb)
    refine ⟨fun hc => ?_, fun hc hp => ?_, fun hc hp => ?_⟩
    · simp only [fetchVideoInfo, h0, h1, h2, ebind_ok, hnone, hc]
      simp
    · simp only [fetchVideoInfo, h0, h1, h2, ebind_ok, hnone, hc, hp]
      simp
    · simp only [fetchVideoInfo, h0, h1, h2, ebind_ok, hnone, hc, hp]
      simp
  · intro blk j kvs hb hp hg ha
    simp only [fetchVideoInfo, h0, h1, h2, ebind_ok, hb, hp, jsOptChain_some, hg]
    simp only [jsTruthy, jsInOp, ha, ebind_ok]
    simp

/-- Witness for C1 (amended), one concrete body per classified branch. -/
theorem c1_amended_witness :
    fetchVideoInfo "abcdefghijk" none "x class=\"g-recaptcha\" y" = .error .tooManyRequests ∧
    fetchVideoInfo "abcdefghijk" none "a bare page" = .error (.videoUnavailable "abcdefghijk") ∧
    fetchVideoInfo "abcdefghijk" none "x \"playabilityStatus\": y" = .ok ⟨none, .arr [], []⟩ ∧
    fetchVideoInfo "abcdefghijk" none
        "\"captions\":\x7b\"playerCaptionsTracklistRenderer\":\x7b\"x\":1\x7d\x7d,\"videoDetails\"" =
      .error (.notAvailable "abcdefghijk") :=
  ⟨((c1_amended "abcdefghijk" "abcdefghijk" none "x class=\"g-recaptcha\" y" none []
      rfl rfl rfl).1 rfl).1 rfl,
   ((c1_amended "abcdefghijk" "abcdefghijk" none "a bare page" none []
      rfl rfl rfl).1 rfl).2.1 rfl rfl,
   ((c1_amended "abcdefghijk" "abcdefghijk" none "x \"playabilityStatus\": y" none []
      rfl rfl rfl).1 rfl).2.2 rfl rfl,
   (c1_amended "abcdefghijk" "abcdefghijk" none
      "\"captions\":\x7b\"playerCaptionsTracklistRenderer\":\x7b\"x\":1\x7d\x7d,\"videoDetails\"" none []
      rfl rfl rfl).2
      "\x7b\"playerCaptionsTracklistRenderer\":\x7b\"x\":1\x7d\x7d"
      (.obj [("playerCaptionsTracklistRenderer", .obj [("x", .num "1")])])
      [("x", .num "1")] rfl rfl rfl rfl⟩

theorem mkRelatedVideo_videoId {cvr : Option Json} {rv : RelatedVideo}
    (h : mkRelatedVideo cvr = .ok rv) : jsPropO cvr "videoId" = .ok rv.videoId := by
  unfold mkRelatedVideo at h
  obtain ⟨vid, hvid, h⟩ := ebind_ok_elim h
  obtain ⟨t1, _, h⟩ := ebind_ok_elim h
  obtain ⟨title, _, h⟩ := ebind_ok_elim h
  obtain ⟨th, _, h⟩ := ebind_ok_elim h
  obtain ⟨ths, _, h⟩ := ebind_ok_elim h
  obtain ⟨le, _, h⟩ := ebind_ok_elim h
  obtain ⟨thumbnailUrl, _, h⟩ := ebind_ok_elim h
  obtain ⟨lt, _, h⟩ := ebind_ok_elim h
  obtain ⟨ct, _, h⟩ := ebind_ok_elim h
  obtain ⟨cts, _, h⟩ := ebind_ok_elim h
  obtain ⟨e0, _, h⟩ := ebind_ok_elim h
  obtain ⟨channelThumbnailUrl, _, h⟩ := ebind_ok_elim h
  obtain ⟨vct, _, h⟩ := ebind_ok_elim h
  obtain ⟨st, _, h⟩ := ebind_ok_elim h
  obtain ⟨viewCount, _, h⟩ := ebind_ok_elim h
  obtain ⟨lb, _, h⟩ := ebind_ok_elim h
  obtain ⟨runs, _, h⟩ := ebind_ok_elim h
  obtain ⟨r0, _, h⟩ := ebind_ok_elim h
  obtain ⟨ne1, _, h⟩ := ebind_ok_elim h
  obtain ⟨cm, _, h⟩ := ebind_ok_elim h
  obtain ⟨wm, _, h⟩ := ebind_ok_elim h
  obtain ⟨channelId, _, h⟩ := ebind_ok_elim h
  obtain ⟨channelText, _, h⟩ := ebind_ok_elim h
  injection h with h2
  subst h2
  exact hvid

theorem relatedPred_ok_true {videoId : String} {item : Json}
    (h : relatedPred videoId item = .ok true) :
    ∃ cvr, jsPropJ item "compactVideoRenderer" = .ok cvr ∧
      ∃ vid, jsPropO cvr "videoId" = .ok vid ∧ vid ≠ some (.str videoId) := by
  unfold relatedPred at h
  obtain ⟨cvr, hcvr, h⟩ := ebind_ok_elim h
  by_cases ht : jsTruthyO cvr = true
  · rw [ht] at h
    simp only [Bool.not_true, Bool.false_eq_true, if_false] at h
    obtain ⟨cvr2, hcvr2, h⟩ := ebind_ok_elim h
    rw [hcvr] at hcvr2
    injection hcvr2 with he
    subst he
    obtain ⟨vid, hvid, h⟩ := ebind_ok_elim h
    refine ⟨cvr, hcvr, vid, hvid, ?_⟩
    rintro rfl
    simp only [epure_eq, beq_self_eq_true, Bool.not_true] at h
    exact Bool.noConfusion (Except.ok.inj h)
  · rw [Bool.not_eq_true] at ht
    rw [ht] at h
    simp only [Bool.not_false, if_true, epure_eq] at h
    exact Bool.noConfusion (Except.ok.inj h)

/-- C6 (amended): the related-video list is obtained by descending
`secondaryResults.secondaryResults.results` (a missing path yields the
empty list), keeping exactly the entries with a truthy
`compactVideoRenderer` whose `videoId` differs by strict equality from the
*raw caller input* — so no returned entry ever carries the caller's input
string as its `videoId`, but when the caller passed a URL the subject
video itself is *not* excluded (the counterexample shows it appearing). -/
theorem c6_amended :
    (∀ body videoId, getTwoColumnWatchNextResults body = .ok none →
      getRelatedVideos body videoId = .ok []) ∧
    (∀ body videoId l, getRelatedVideos body videoId = .ok l →
      ∀ rv ∈ l, rv.videoId ≠ some (.str videoId)) := by
  constructor
  · intro body videoId h
    simp only [getRelatedVideos, h, ebind_ok]
    rfl
  · intro body videoId l h rv hrv
    unfold getRelatedVideos at h
    obtain ⟨data, _, h⟩ := ebind_ok_elim h
    by_cases hT : jsTruthyO data = true
    · rw [hT] at h
      simp only [Bool.not_true, Bool.false_eq_true, if_false] at h
      by_cases hC : jsTruthyO (jsOptChain (jsOptChain (jsOptChain data "secondaryResults")
          "secondaryResults") "results") = true
      · rw [hC] at h
        simp only [Bool.not_true, Bool.false_eq_true, if_false] at h
        obtain ⟨items, _, h⟩ := ebind_ok_elim h
        obtain ⟨kept, hkept, h⟩ := ebind_ok_elim h
        obtain ⟨cvrs, hcvrs, h⟩ := ebind_ok_elim h
        obtain ⟨cvr, hcvrMem, hmk⟩ := mapE_mem h rv hrv
        obtain ⟨item, hitemMem, hprop⟩ := mapE_mem hcvrs cvr hcvrMem
        obtain ⟨_, hpred⟩ := filterE_mem hkept item hitemMem
        obtain ⟨cvr2, hcvr2, vid, hvid, hne⟩ := relatedPred_ok_true hpred
        rw [hprop] at hcvr2
        injection hcvr2 with he
        subst he
        have hvr := mkRelatedVideo_videoId hmk
        rw [hvid] at hvr
        injection hvr with he2
        rw [← he2]
        exact hne
      · rw [Bool.not_eq_true] at hC
        rw [hC] at h
        simp only [Bool.not_false, if_true] at h
        injection h with he
        rw [← he] at hrv
        exact absurd hrv (by simp)
    · rw [Bool.not_eq_true] at hT
      rw [hT] at h
      simp only [Bool.not_false, if_true] at h
      injection h with he
      rw [← he] at hrv
      exact absurd hrv (by simp)

set_option maxRecDepth 400000 in
/-- C6 fails as stated: the filter compares against the caller's *raw
input*; with the URL form of the very same video, the subject video stays
in `relatedVideos` (its 11-character id differs from the URL string),
while the bare-id call would have filtered it out. -/
theorem c6_counterexample :
    retrieveVideoId "https://youtu.be/abcdefghijk" = .ok "abcdefghijk" ∧
    fetchVideoInfo "https://youtu.be/abcdefghijk" none relatedFixtureBody =
      .ok ⟨none, .arr [],
        [⟨some (.str "abcdefghijk"), some (.str "T"), some (.str "u1"), .str "00:00",
          some (.str "cu"), .val (qnInt 1), some (.str "/ch"), some (.str "Ch")⟩]⟩ ∧
    fetchVideoInfo "abcdefghijk" none relatedFixtureBody = .ok ⟨none, .arr [], []⟩ :=
  ⟨rfl, rfl, rfl⟩

set_option maxRecDepth 400000 in
/-- Witness for C6 (amended): a concrete page with one sidebar entry, a
caller input different from the entry's id; the returned entry's `videoId`
differs from the input. -/
theorem c6_amended_witness :
    getRelatedVideos relatedFixtureBody "zzzzzzzzzzz" =
      .ok [⟨some (.str "abcdefghijk"), some (.str "T"), some (.str "u1"), .str "00:00",
        some (.str "cu"), .val (qnInt 1), some (.str "/ch"), some (.str "Ch")⟩] ∧
    (⟨some (.str "abcdefghijk"), some (.str "T"), some (.str "u1"), .str "00:00",
        some (.str "cu"), .val (qnInt 1), some (.str "/ch"), some (.str "Ch")⟩ :
      RelatedVideo).videoId ≠ some (.str "zzzzzzzzzzz") :=
  ⟨rfl,
   c6_amended.2 relatedFixtureBody "zzzzzzzzzzz"
     [⟨some (.str "abcdefghijk"), some (.str "T"), some (.str "u1"), .str "00:00",
       some (.str "cu"), .val (qnInt 1), some (.str "/ch"), some (.str "Ch")⟩]
     rfl
     ⟨some (.str "abcdefghijk"), some (.str "T"), some (.str "u1"), .str "00:00",
       some (.str "cu"), .val (qnInt 1), some (.str "/ch"), some (.str "Ch")⟩
     (by simp)⟩

theorem reSeqEq (a b : Re) (s : List Char) :
    rmatches (.seq a b) s = (rmatches a s).flatMap (fun t => rmatches b t) := rfl

theorem reClsCons (p : Char → Bool) (c : Char) (s : List Char) :
    rmatches (.cls p) (c :: s) = if p c then [s] else [] := rfl

theorem reStarEq (r : Re) (s : List Char) :
    rmatches (.star r) s = starMs (fun t => rmatches r t) (s.length + 1) s := rfl

theorem seq_assoc (x y z : Re) (s : List Char) :
    rmatches (.seq (.seq x y) z) s = rmatches (.seq x (.seq y z)) s := by
  simp only [reSeqEq, List.flatMap_assoc]

theorem flatMap_eq_nil' {α β : Type} (L : List α) (g : α → List β)
    (h : ∀ t ∈ L, g t = []) : L.flatMap g = [] := by
  induction L with
  | nil => rfl
  | cons x xs ih =>
    simp [List.flatMap_cons, h x (by simp), ih (fun t ht => h t (by simp [ht]))]

theorem starMs_cls_all (p : Char → Bool) :
    ∀ (f : Nat) (s : List Char), s.length < f → (∀ c ∈ s, p c = true) →
      starMs (fun t => rmatches (.cls p) t) f s = sufs s := by
  intro f
  induction f with
  | zero => exact fun s h _ => absurd h (Nat.not_lt_zero _)
  | succ f ih =>
    intro s hlen hall
    cases s with
    | nil => rfl
    | cons c t =>
      have hc : p c = true := hall c (by simp)
      have ht : ∀ x ∈ t, p x = true := fun x hx => hall x (by simp [hx])
      show (rmatches (.cls p) (c :: t)).flatMap
          (starMs (fun u => rmatches (.cls p) u) f) ++ [c :: t] = sufs (c :: t)
      rw [reClsCons, hc]
      simp only [if_true, List.flatMap_cons, List.flatMap_nil, List.append_nil]
      rw [ih t (Nat.lt_of_succ_lt_succ hlen) ht]
      rfl

theorem mem_sufs {s t : List Char} (h : t ∈ sufs s) :
    t = [] ∨ ∃ c t', t = c :: t' ∧ c ∈ s := by
  induction s with
  | nil =>
    simp [sufs] at h
    exact Or.inl h
  | cons c s ih =>
    simp only [sufs, List.mem_append, List.mem_singleton] at h
    rcases h with h | rfl
    · rcases ih h with rfl | ⟨d, t', rfl, hd⟩
      · exact Or.inl rfl
      · exact Or.inr ⟨d, t', rfl, by simp [hd]⟩
    · exact Or.inr ⟨c, s, rfl, by simp⟩

theorem seq_cls_fail_on_sufs {q : Char → Bool} (r2 : Re) {s : List Char}
    (hq : ∀ x ∈ s, q x = false) :
    ∀ u ∈ sufs s, rmatches (.seq (.cls q) r2) u = [] := by
  intro u hu
  rcases mem_sufs hu with rfl | ⟨c, t', rfl, hc⟩
  · rfl
  · rw [reSeqEq, reClsCons, hq c hc]
    rfl

theorem cls_fail_on_sufs {q : Char → Bool} {s : List Char}
    (hq : ∀ x ∈ s, q x = false) :
    ∀ u ∈ sufs s, rmatches (.cls q) u = [] := by
  intro u hu
  rcases mem_sufs hu with rfl | ⟨c, t', rfl, hc⟩
  · rfl
  · rw [reClsCons, hq c hc]
    rfl

theorem rmatches_star_cls (p : Char → Bool) (s : List Char) (hall : ∀ c ∈ s, p c = true) :
    rmatches (.star (.cls p)) s = sufs s := by
  rw [reStarEq]
  exact starMs_cls_all p (s.length + 1) s (Nat.lt_succ_self _) hall

theorem rmatches_plus_cls (p : Char → Bool) (c : Char) (t : List Char)
    (hc : p c = true) (ht : ∀ x ∈ t, p x = true) :
    rmatches (rePlus (.cls p)) (c :: t) = sufs t := by
  show (rmatches (.cls p) (c :: t)).flatMap (fun u => rmatches (.star (.cls p)) u) = sufs t
  rw [reClsCons, hc]
  simp only [if_true, List.flatMap_cons, List.flatMap_nil, List.append_nil]
  exact rmatches_star_cls p t ht

theorem plusDot_slash_nil (L : List Char)
    (hdot : ∀ c ∈ L, dotP c = true) (hslash : ∀ c ∈ L, ciSat '/' c = false) :
    rmatches (.seq (rePlus reDot) (ciChar '/')) L = [] := by
  cases L with
  | nil => rfl
  | cons c t =>
    have hc := hdot c (by simp)
    have ht : ∀ x ∈ t, dotP x = true := fun x hx => hdot x (by simp [hx])
    rw [reSeqEq]
    rw [show rmatches (rePlus reDot) (c :: t) = sufs t from rmatches_plus_cls dotP c t hc ht]
    apply flatMap_eq_nil'
    exact cls_fail_on_sufs (fun x hx => hslash x (by simp [hx]))

theorem ciLit_consume (cs : List Char) (r : Re) (s : List Char)
    (h : ∀ c ∈ cs, ciSat c c = true) :
    rmatches (.seq (cs.foldr (fun c acc => .seq (ciChar c) acc) .eps) r) (cs ++ s) =
      rmatches r s := by
  induction cs with
  | nil =>
    show rmatches (.seq .eps r) s = rmatches r s
    simp [reSeqEq, rmatches]
  | cons c cs ih =>
    show rmatches (.seq (.seq (ciChar c) (cs.foldr (fun c acc => .seq (ciChar c) acc) .eps)) r)
        (c :: (cs ++ s)) = rmatches r s
    rw [seq_assoc, reSeqEq]
    rw [show rmatches (ciChar c) (c :: (cs ++ s)) = if ciSat c c then [cs ++ s] else []
      from rfl]
    rw [h c (by simp)]
    simp only [if_true, List.flatMap_cons, List.flatMap_nil, List.append_nil]
    exact ih (fun d hd => h d (by simp [hd]))

theorem rmatches_before_ytcom (s : List Char) :
    rmatches reYoutubeBefore ("youtube.com/".data ++ s) =
      rmatches reAltA s ++ (rmatches reAltB s ++ rmatches reAltC s) := by
  have e1 : rmatches reYoutubeBefore ("youtube.com/".data ++ s) =
      rmatches (.seq (ciLit "youtube.com/") (.alt reAltA (.alt reAltB reAltC)))
        ("youtube.com/".data ++ s) ++
      rmatches (ciLit "youtu.be/") ("youtube.com/".data ++ s) := rfl
  have e2 : rmatches (ciLit "youtu.be/") ("youtube.com/".data ++ s) = [] := rfl
  have e3 : rmatches (.seq (ciLit "youtube.com/") (.alt reAltA (.alt reAltB reAltC)))
      ("youtube.com/".data ++ s) = rmatches (.alt reAltA (.alt reAltB reAltC)) s :=
    ciLit_consume "youtube.com/".data (.alt reAltA (.alt reAltB reAltC)) s (by decide)
  rw [e1, e2, e3, List.append_nil]
  rfl

theorem tryMatchAt_ytcom (s : List Char) :
    tryMatchAt ("youtube.com/".data ++ s) =
      firstSome captureIdAt
        (rmatches reAltA s ++ (rmatches reAltB s ++ rmatches reAltC s)) := by
  unfold tryMatchAt
  rw [rmatches_before_ytcom s]

theorem idChar_not_slash {c : Char} (h : idChar c = true) : (c == '/') = false := by
  cases hc : c == '/'
  · rfl
  · exfalso
    unfold idChar at h
    rw [hc] at h
    simp at h

theorem idChar_not_q {c : Char} (h : idChar c = true) : (c == '?') = false := by
  cases hc : c == '?'
  · rfl
  · exfalso
    unfold idChar at h
    rw [hc] at h
    simp at h

theorem idChar_not_amp {c : Char} (h : idChar c = true) : (c == '&') = false := by
  cases hc : c == '&'
  · rfl
  · exfalso
    unfold idChar at h
    rw [hc] at h
    simp at h

theorem idChar_not_ws {c : Char} (h : idChar c = true) : jsWhitespace c = false := by
  cases hw : jsWhitespace c
  · rfl
  · exfalso
    unfold idChar at h
    rw [hw] at h
    simp at h

theorem dotP_of_idChar {c : Char} (h : idChar c = true) : dotP c = true := by
  have hw := idChar_not_ws h
  have h1 : (c == '\n') = false := by
    cases hn : c == '\n'
    · rfl
    · rw [beq_iff_eq.mp hn] at hw
      exact Bool.noConfusion hw
  have h2 : (c == '\r') = false := by
    cases hn : c == '\r'
    · rfl
    · rw [beq_iff_eq.mp hn] at hw
      exact Bool.noConfusion hw
  have h3 : (c == ' ') = false := by
    cases hn : c == ' '
    · rfl
    · rw [beq_iff_eq.mp hn] at hw
      exact Bool.noConfusion hw
  have h4 : (c == ' ') = false := by
    cases hn : c == ' '
    · rfl
    · rw [beq_iff_eq.mp hn] at hw
      exact Bool.noConfusion hw
  unfold dotP
  rw [h1, h2, h3, h4]
  rfl

theorem notSlashP_of_idChar {c : Char} (h : idChar c = true) : notSlashP c = true := by
  unfold notSlashP
  rw [idChar_not_slash h]
  rfl

theorem qAmpP_of_idChar {c : Char} (h : idChar c = true) : qAmpP c = false := by
  unfold qAmpP
  rw [idChar_not_q h, idChar_not_amp h]
  rfl

theorem ciSatSlash_of_idChar {c : Char} (h : idChar c = true) : ciSat '/' c = false :=
  idChar_not_slash h

theorem captureIdAt_of (L : List Char) (hlen : L.length = 11)
    (hall : ∀ c ∈ L, idChar c = true) : captureIdAt L = some L := by
  have ht : L.take 11 = L := by
    rw [← hlen]
    exact List.take_length L
  show (if (decide ((L.take 11).length = 11) && (L.take 11).all idChar) = true
      then some (L.take 11) else none) = some L
  rw [ht, hlen, List.all_eq_true.mpr hall]
  rfl

theorem sufs_cons (c : Char) (s : List Char) : sufs (c :: s) = sufs s ++ [c :: s] := rfl

theorem tm_watch (L : List Char) (hlen : L.length = 11)
    (hall : ∀ c ∈ L, idChar c = true) :
    tryMatchAt ("youtube.com/".data ++ ("watch?v=".data ++ L)) = some L := by
  have hns : ∀ x ∈ "atch?v=".data ++ L, notSlashP x = true := by
    intro x hx
    rcases List.mem_append.mp hx with hx | hx
    · exact (by decide : ∀ x ∈ "atch?v=".data, notSlashP x = true) x hx
    · exact notSlashP_of_idChar (hall x hx)
  have hsl : ∀ x ∈ "atch?v=".data ++ L, ciSat '/' x = false := by
    intro x hx
    rcases List.mem_append.mp hx with hx | hx
    · exact (by decide : ∀ x ∈ "atch?v=".data, ciSat '/' x = false) x hx
    · exact ciSatSlash_of_idChar (hall x hx)
  have hdall : ∀ x ∈ "watch?v=".data ++ L, dotP x = true := by
    intro x hx
    rcases List.mem_append.mp hx with hx | hx
    · exact (by decide : ∀ x ∈ "watch?v=".data, dotP x = true) x hx
    · exact dotP_of_idChar (hall x hx)
  have hqL : ∀ x ∈ L, qAmpP x = false := fun x hx => qAmpP_of_idChar (hall x hx)
  have hA : rmatches reAltA ("watch?v=".data ++ L) = [] := by
    show (rmatches (rePlus (.cls notSlashP)) ('w' :: ("atch?v=".data ++ L))).flatMap
        (fun t => rmatches (.seq (.cls (fun c => ciSat '/' c))
          (.seq (rePlus reDot) (ciChar '/'))) t) = []
    rw [rmatches_plus_cls notSlashP 'w' ("atch?v=".data ++ L) (by decide) hns]
    exact flatMap_eq_nil' _ _ (seq_cls_fail_on_sufs _ hsl)
  have hB : rmatches reAltB ("watch?v=".data ++ L) = [] := rfl
  have hC : rmatches reAltC ("watch?v=".data ++ L) = [L] := by
    show (rmatches (.star (.cls dotP)) ("watch?v=".data ++ L)).flatMap
        (fun t => rmatches (.seq (.cls qAmpP) (.seq (ciChar 'v') (ciChar '='))) t) = [L]
    rw [rmatches_star_cls dotP ("watch?v=".data ++ L) hdall]
    have e0 : (sufs L).flatMap
        (fun t => rmatches (.seq (.cls qAmpP) (.seq (ciChar 'v') (ciChar '='))) t) = [] :=
      flatMap_eq_nil' _ _ (seq_cls_fail_on_sufs _ hqL)
    have e1 : rmatches (.seq (.cls qAmpP) (.seq (ciChar 'v') (ciChar '='))) ('=' :: L) = [] :=
      rfl
    have e2 : rmatches (.seq (.cls qAmpP) (.seq (ciChar 'v') (ciChar '=')))
        ('v' :: '=' :: L) = [] := rfl
    have e3 : rmatches (.seq (.cls qAmpP) (.seq (ciChar 'v') (ciChar '=')))
        ('?' :: 'v' :: '=' :: L) = [L] := rfl
    have e4 : rmatches (.seq (.cls qAmpP) (.seq (ciChar 'v') (ciChar '=')))
        ('h' :: '?' :: 'v' :: '=' :: L) = [] := rfl
    have e5 : rmatches (.seq (.cls qAmpP) (.seq (ciChar 'v') (ciChar '=')))
        ('c' :: 'h' :: '?' :: 'v' :: '=' :: L) = [] := rfl
    have e6 : rmatches (.seq (.cls qAmpP) (.seq (ciChar 'v') (ciChar '=')))
        ('t' :: 'c' :: 'h' :: '?' :: 'v' :: '=' :: L) = [] := rfl
    have e7 : rmatches (.seq (.cls qAmpP) (.seq (ciChar 'v') (ciChar '=')))
        ('a' :: 't' :: 'c' :: 'h' :: '?' :: 'v' :: '=' :: L) = [] := rfl
    have e8 : rmatches (.seq (.cls qAmpP) (.seq (ciChar 'v') (ciChar '=')))
        ('w' :: 'a' :: 't' :: 'c' :: 'h' :: '?' :: 'v' :: '=' :: L) = [] := rfl
    show (sufs ('w' :: 'a' :: 't' :: 'c' :: 'h' :: '?' :: 'v' :: '=' :: L)).flatMap
        (fun t => rmatches (.seq (.cls qAmpP) (.seq (ciChar 'v') (ciChar '='))) t) = [L]
    simp only [sufs_cons, List.flatMap_append, List.flatMap_cons, List.flatMap_nil,
      e0, e1, e2, e3, e4, e5, e6, e7, e8, List.nil_append, List.append_nil]
  rw [tryMatchAt_ytcom ("watch?v=".data ++ L), hA, hB, hC]
  simp only [List.nil_append, firstSome, captureIdAt_of L hlen hall]

theorem tm_embed (L : List Char) (hlen : L.length = 11)
    (hall : ∀ c ∈ L, idChar c = true) :
    tryMatchAt ("youtube.com/".data ++ ("embed/".data ++ L)) = some L := by
  have hdotL : ∀ c ∈ L, dotP c = true := fun c hc => dotP_of_idChar (hall c hc)
  have hslL : ∀ c ∈ L, ciSat '/' c = false := fun c hc => ciSatSlash_of_idChar (hall c hc)
  have hq : ∀ x ∈ "embed/".data ++ L, qAmpP x = false := by
    intro x hx
    rcases List.mem_append.mp hx with hx | hx
    · exact (by decide : ∀ x ∈ "embed/".data, qAmpP x = false) x hx
    · exact qAmpP_of_idChar (hall x hx)
  have hdall : ∀ x ∈ "embed/".data ++ L, dotP x = true := by
    intro x hx
    rcases List.mem_append.mp hx with hx | hx
    · exact (by decide : ∀ x ∈ "embed/".data, dotP x = true) x hx
    · exact dotP_of_idChar (hall x hx)
  have f1 : rmatches (.seq (.cls (fun c => ciSat '/' c))
      (.seq (rePlus reDot) (ciChar '/'))) ('/' :: L) = [] := by
    rw [reSeqEq, reClsCons]
    rw [show ciSat '/' '/' = true from rfl]
    simp only [if_true, List.flatMap_cons, List.flatMap_nil, List.append_nil]
    exact plusDot_slash_nil L hdotL hslL
  have hA : rmatches reAltA ("embed/".data ++ L) = [] := by
    show (rmatches (rePlus (.cls notSlashP)) ("embed/".data ++ L)).flatMap
        (fun t => rmatches (.seq (.cls (fun c => ciSat '/' c))
          (.seq (rePlus reDot) (ciChar '/'))) t) = []
    rw [show rmatches (rePlus (.cls notSlashP)) ("embed/".data ++ L) =
      [('/' :: L), ('d' :: '/' :: L), ('e' :: 'd' :: '/' :: L),
        ('b' :: 'e' :: 'd' :: '/' :: L), ('m' :: 'b' :: 'e' :: 'd' :: '/' :: L)] from rfl]
    simp only [List.flatMap_cons, List.flatMap_nil, f1,
      show rmatches (.seq (.cls (fun c => ciSat '/' c))
        (.seq (rePlus reDot) (ciChar '/'))) ('d' :: '/' :: L) = [] from rfl,
      show rmatches (.seq (.cls (fun c => ciSat '/' c))
        (.seq (rePlus reDot) (ciChar '/'))) ('e' :: 'd' :: '/' :: L) = [] from rfl,
      show rmatches (.seq (.cls (fun c => ciSat '/' c))
        (.seq (rePlus reDot) (ciChar '/'))) ('b' :: 'e' :: 'd' :: '/' :: L) = [] from rfl,
      show rmatches (.seq (.cls (fun c => ciSat '/' c))
        (.seq (rePlus reDot) (ciChar '/'))) ('m' :: 'b' :: 'e' :: 'd' :: '/' :: L) = []
        from rfl,
      List.append_nil]
  have hB : rmatches reAltB ("embed/".data ++ L) = [L] := rfl
  have hC : rmatches reAltC ("embed/".data ++ L) = [] := by
    show (rmatches (.star (.cls dotP)) ("embed/".data ++ L)).flatMap
        (fun t => rmatches (.seq (.cls qAmpP) (.seq (ciChar 'v') (ciChar '='))) t) = []
    rw [rmatches_star_cls dotP ("embed/".data ++ L) hdall]
    exact flatMap_eq_nil' _ _ (seq_cls_fail_on_sufs _ hq)
  rw [tryMatchAt_ytcom ("embed/".data ++ L), hA, hB, hC]
  simp only [List.nil_append, List.append_nil, firstSome, captureIdAt_of L hlen hall]

theorem tm_v (L : List Char) (hlen : L.length = 11)
    (hall : ∀ c ∈ L, idChar c = true) :
    tryMatchAt ("youtube.com/".data ++ ("v/".data ++ L)) = some L := by
  have hdotL : ∀ c ∈ L, dotP c = true := fun c hc => dotP_of_idChar (hall c hc)
  have hslL : ∀ c ∈ L, ciSat '/' c = false := fun c hc => ciSatSlash_of_idChar (hall c hc)
  have hq : ∀ x ∈ "v/".data ++ L, qAmpP x = false := by
    intro x hx
    rcases List.mem_append.mp hx with hx | hx
    · exact (by decide : ∀ x ∈ "v/".data, qAmpP x = false) x hx
    · exact qAmpP_of_idChar (hall x hx)
  have hdall : ∀ x ∈ "v/".data ++ L, dotP x = true := by
    intro x hx
    rcases List.mem_append.mp hx with hx | hx
    · exact (by decide : ∀ x ∈ "v/".data, dotP x = true) x hx
    · exact dotP_of_idChar (hall x hx)
  have f1 : rmatches (.seq (.cls (fun c => ciSat '/' c))
      (.seq (rePlus reDot) (ciChar '/'))) ('/' :: L) = [] := by
    rw [reSeqEq, reClsCons]
    rw [show ciSat '/' '/' = true from rfl]
    simp only [if_true, List.flatMap_cons, List.flatMap_nil, List.append_nil]
    exact plusDot_slash_nil L hdotL hslL
  have hA : rmatches reAltA ("v/".data ++ L) = [] := by
    show (rmatches (rePlus (.cls notSlashP)) ("v/".data ++ L)).flatMap
        (fun t => rmatches (.seq (.cls (fun c => ciSat '/' c))
          (.seq (rePlus reDot) (ciChar '/'))) t) = []
    rw [show rmatches (rePlus (.cls notSlashP)) ("v/".data ++ L) = [('/' :: L)] from rfl]
    simp only [List.flatMap_cons, List.flatMap_nil, f1, List.append_nil]
  have hB : rmatches reAltB ("v/".data ++ L) = [L] := rfl
  have hC : rmatches reAltC ("v/".data ++ L) = [] := by
    show (rmatches (.star (.cls dotP)) ("v/".data ++ L)).flatMap
        (fun t => rmatches (.seq (.cls qAmpP) (.seq (ciChar 'v') (ciChar '='))) t) = []
    rw [rmatches_star_cls dotP ("v/".data ++ L) hdall]
    exact flatMap_eq_nil' _ _ (seq_cls_fail_on_sufs _ hq)
  rw [tryMatchAt_ytcom ("v/".data ++ L), hA, hB, hC]
  simp only [List.nil_append, List.append_nil, firstSome, captureIdAt_of L hlen hall]

theorem tm_be (L : List Char) (hlen : L.length = 11)
    (hall : ∀ c ∈ L, idChar c = true) :
    tryMatchAt ("youtu.be/".data ++ L) = some L := by
  have e : rmatches reYoutubeBefore ("youtu.be/".data ++ L) = [L] := rfl
  unfold tryMatchAt
  rw [e]
  simp only [firstSome, captureIdAt_of L hlen hall]

theorem reYoutubeCapture_cons (c : Char) (s : List Char) :
    reYoutubeCapture (c :: s) =
      match tryMatchAt (c :: s) with
      | some m => some m
      | none => reYoutubeCapture s := rfl

theorem reYoutubeCapture_step (c : Char) (s : List Char)
    (h : tryMatchAt (c :: s) = none) :
    reYoutubeCapture (c :: s) = reYoutubeCapture s := by
  rw [reYoutubeCapture_cons, h]

theorem reYoutubeCapture_hit (c : Char) (s m : List Char)
    (h : tryMatchAt (c :: s) = some m) :
    reYoutubeCapture (c :: s) = some m := by
  rw [reYoutubeCapture_cons, h]

theorem scan_watch (L : List Char) (hlen : L.length = 11)
    (hall : ∀ c ∈ L, idChar c = true) :
    reYoutubeCapture ("https://www.youtube.com/watch?v=".data ++ L) = some L := by
  have s1 : reYoutubeCapture ("https://www.youtube.com/watch?v=".data ++ L) =
      reYoutubeCapture ("ttps://www.youtube.com/watch?v=".data ++ L) :=
    reYoutubeCapture_step 'h' ("ttps://www.youtube.com/watch?v=".data ++ L) rfl
  have s2 : reYoutubeCapture ("ttps://www.youtube.com/watch?v=".data ++ L) =
      reYoutubeCapture ("tps://www.youtube.com/watch?v=".data ++ L) :=
    reYoutubeCapture_step 't' ("tps://www.youtube.com/watch?v=".data ++ L) rfl
  have s3 : reYoutubeCapture ("tps://www.youtube.com/watch?v=".data ++ L) =
      reYoutubeCapture ("ps://www.youtube.com/watch?v=".data ++ L) :=
    reYoutubeCapture_step 't' ("ps://www.youtube.com/watch?v=".data ++ L) rfl
  have s4 : reYoutubeCapture ("ps://www.youtube.com/watch?v=".data ++ L) =
      reYoutubeCapture ("s://www.youtube.com/watch?v=".data ++ L) :=
    reYoutubeCapture_step 'p' ("s://www.youtube.com/watch?v=".data ++ L) rfl
  have s5 : reYoutubeCapture ("s://www.youtube.com/watch?v=".data ++ L) =
      reYoutubeCapture ("://www.youtube.com/watch?v=".data ++ L) :=
    reYoutubeCapture_step 's' ("://www.youtube.com/watch?v=".data ++ L) rfl
  have s6 : reYoutubeCapture ("://www.youtube.com/watch?v=".data ++ L) =
      reYoutubeCapture ("//www.youtube.com/watch?v=".data ++ L) :=
    reYoutubeCapture_step ':' ("//www.youtube.com/watch?v=".data ++ L) rfl
  have s7 : reYoutubeCapture ("//www.youtube.com/watch?v=".data ++ L) =
      reYoutubeCapture ("/www.youtube.com/watch?v=".data ++ L) :=
    reYoutubeCapture_step '/' ("/www.youtube.com/watch?v=".data ++ L) rfl
  have s8 : reYoutubeCapture ("/www.youtube.com/watch?v=".data ++ L) =
      reYoutubeCapture ("www.youtube.com/watch?v=".data ++ L) :=
    reYoutubeCapture_step '/' ("www.youtube.com/watch?v=".data ++ L) rfl
  have s9 : reYoutubeCapture ("www.youtube.com/watch?v=".data ++ L) =
      reYoutubeCapture ("ww.youtube.com/watch?v=".data ++ L) :=
    reYoutubeCapture_step 'w' ("ww.youtube.com/watch?v=".data ++ L) rfl
  have s10 : reYoutubeCapture ("ww.youtube.com/watch?v=".data ++ L) =
      reYoutubeCapture ("w.youtube.com/watch?v=".data ++ L) :=
    reYoutubeCapture_step 'w' ("w.youtube.com/watch?v=".data ++ L) rfl
  have s11 : reYoutubeCapture ("w.youtube.com/watch?v=".data ++ L) =
      reYoutubeCapture (".youtube.com/watch?v=".data ++ L) :=
    reYoutubeCapture_step 'w' (".youtube.com/watch?v=".data ++ L) rfl
  have s12 : reYoutubeCapture (".youtube.com/watch?v=".data ++ L) =
      reYoutubeCapture ("youtube.com/watch?v=".data ++ L) :=
    reYoutubeCapture_step '.' ("youtube.com/watch?v=".data ++ L) rfl
  rw [s1, s2, s3, s4, s5, s6, s7, s8, s9, s10, s11, s12]
  exact reYoutubeCapture_hit 'y' ("outube.com/watch?v=".data ++ L) L (tm_watch L hlen hall)

theorem scan_embed (L : List Char) (hlen : L.length = 11)
    (hall : ∀ c ∈ L, idChar c = true) :
    reYoutubeCapture ("https://www.youtube.com/embed/".data ++ L) = some L := by
  have s1 : reYoutubeCapture ("https://www.youtube.com/embed/".data ++ L) =
      reYoutubeCapture ("ttps://www.youtube.com/embed/".data ++ L) :=
    reYoutubeCapture_step 'h' ("ttps://www.youtube.com/embed/".data ++ L) rfl
  have s2 : reYoutubeCapture ("ttps://www.youtube.com/embed/".data ++ L) =
      reYoutubeCapture ("tps://www.youtube.com/embed/".data ++ L) :=
    reYoutubeCapture_step 't' ("tps://www.youtube.com/embed/".data ++ L) rfl
  have s3 : reYoutubeCapture ("tps://www.youtube.com/embed/".data ++ L) =
      reYoutubeCapture ("ps://www.youtube.com/embed/".data ++ L) :=
    reYoutubeCapture_step 't' ("ps://www.youtube.com/embed/".data ++ L) rfl
  have s4 : reYoutubeCapture ("ps://www.youtube.com/embed/".data ++ L) =
      reYoutubeCapture ("s://www.youtube.com/embed/".data ++ L) :=
    reYoutubeCapture_step 'p' ("s://www.youtube.com/embed/".data ++ L) rfl
  have s5 : reYoutubeCapture ("s://www.youtube.com/embed/".data ++ L) =
      reYoutubeCapture ("://www.youtube.com/embed/".data ++ L) :=
    reYoutubeCapture_step 's' ("://www.youtube.com/embed/".data ++ L) rfl
  have s6 : reYoutubeCapture ("://www.youtube.com/embed/".data ++ L) =
      reYoutubeCapture ("//www.youtube.com/embed/".data ++ L) :=
    reYoutubeCapture_step ':' ("//www.youtube.com/embed/".data ++ L) rfl
  have s7 : reYoutubeCapture ("//www.youtube.com/embed/".data ++ L) =
      reYoutubeCapture ("/www.youtube.com/embed/".data ++ L) :=
    reYoutubeCapture_step '/' ("/www.youtube.com/embed/".data ++ L) rfl
  have s8 : reYoutubeCapture ("/www.youtube.com/embed/".data ++ L) =
      reYoutubeCapture ("www.youtube.com/embed/".data ++ L) :=
    reYoutubeCapture_step '/' ("www.youtube.com/embed/".data ++ L) rfl
  have s9 : reYoutubeCapture ("www.youtube.com/embed/".data ++ L) =
      reYoutubeCapture ("ww.youtube.com/embed/".data ++ L) :=
    reYoutubeCapture_step 'w' ("ww.youtube.com/embed/".data ++ L) rfl
  have s10 : reYoutubeCapture ("ww.youtube.com/embed/".data ++ L) =
      reYoutubeCapture ("w.youtube.com/embed/".data ++ L) :=
    reYoutubeCapture_step 'w' ("w.youtube.com/embed/".data ++ L) rfl
  have s11 : reYoutubeCapture ("w.youtube.com/embed/".data ++ L) =
      reYoutubeCapture (".youtube.com/embed/".data ++ L) :=
    reYoutubeCapture_step 'w' (".youtube.com/embed/".data ++ L) rfl
  have s12 : reYoutubeCapture (".youtube.com/embed/".data ++ L) =
      reYoutubeCapture ("youtube.com/embed/".data ++ L) :=
    reYoutubeCapture_step '.' ("youtube.com/embed/".data ++ L) rfl
  rw [s1, s2, s3, s4, s5, s6, s7, s8, s9, s10, s11, s12]
  exact reYoutubeCapture_hit 'y' ("outube.com/embed/".data ++ L) L (tm_embed L hlen hall)

theorem scan_v (L : List Char) (hlen : L.length = 11)
    (hall : ∀ c ∈ L, idChar c = true) :
    reYoutubeCapture ("https://www.youtube.com/v/".data ++ L) = some L := by
  have s1 : reYoutubeCapture ("https://www.youtube.com/v/".data ++ L) =
      reYoutubeCapture ("ttps://www.youtube.com/v/".data ++ L) :=
    reYoutubeCapture_step 'h' ("ttps://www.youtube.com/v/".data ++ L) rfl
  have s2 : reYoutubeCapture ("ttps://www.youtube.com/v/".data ++ L) =
      reYoutubeCapture ("tps://www.youtube.com/v/".data ++ L) :=
    reYoutubeCapture_step 't' ("tps://www.youtube.com/v/".data ++ L) rfl
  have s3 : reYoutubeCapture ("tps://www.youtube.com/v/".data ++ L) =
      reYoutubeCapture ("ps://www.youtube.com/v/".data ++ L) :=
    reYoutubeCapture_step 't' ("ps://www.youtube.com/v/".data ++ L) rfl
  have s4 : reYoutubeCapture ("ps://www.youtube.com/v/".data ++ L) =
      reYoutubeCapture ("s://www.youtube.com/v/".data ++ L) :=
    reYoutubeCapture_step 'p' ("s://www.youtube.com/v/".data ++ L) rfl
  have s5 : reYoutubeCapture ("s://www.youtube.com/v/".data ++ L) =
      reYoutubeCapture ("://www.youtube.com/v/".data ++ L) :=
    reYoutubeCapture_step 's' ("://www.youtube.com/v/".data ++ L) rfl
  have s6 : reYoutubeCapture ("://www.youtube.com/v/".data ++ L) =
      reYoutubeCapture ("//www.youtube.com/v/".data ++ L) :=
    reYoutubeCapture_step ':' ("//www.youtube.com/v/".data ++ L) rfl
  have s7 : reYoutubeCapture ("//www.youtube.com/v/".data ++ L) =
      reYoutubeCapture ("/www.youtube.com/v/".data ++ L) :=
    reYoutubeCapture_step '/' ("/www.youtube.com/v/".data ++ L) rfl
  have s8 : reYoutubeCapture ("/www.youtube.com/v/".data ++ L) =
      reYoutubeCapture ("www.youtube.com/v/".data ++ L) :=
    reYoutubeCapture_step '/' ("www.youtube.com/v/".data ++ L) rfl
  have s9 : reYoutubeCapture ("www.youtube.com/v/".data ++ L) =
      reYoutubeCapture ("ww.youtube.com/v/".data ++ L) :=
    reYoutubeCapture_step 'w' ("ww.youtube.com/v/".data ++ L) rfl
  have s10 : reYoutubeCapture ("ww.youtube.com/v/".data ++ L) =
      reYoutubeCapture ("w.youtube.com/v/".data ++ L) :=
    reYoutubeCapture_step 'w' ("w.youtube.com/v/".data ++ L) rfl
  have s11 : reYoutubeCapture ("w.youtube.com/v/".data ++ L) =
      reYoutubeCapture (".youtube.com/v/".data ++ L) :=
    reYoutubeCapture_step 'w' (".youtube.com/v/".data ++ L) rfl
  have s12 : reYoutubeCapture (".youtube.com/v/".data ++ L) =
      reYoutubeCapture ("youtube.com/v/".data ++ L) :=
    reYoutubeCapture_step '.' ("youtube.com/v/".data ++ L) rfl
  rw [s1, s2, s3, s4, s5, s6, s7, s8, s9, s10, s11, s12]
  exact reYoutubeCapture_hit 'y' ("outube.com/v/".data ++ L) L (tm_v L hlen hall)

theorem scan_be (L : List Char) (hlen : L.length = 11)
    (hall : ∀ c ∈ L, idChar c = true) :
    reYoutubeCapture ("https://youtu.be/".data ++ L) = some L := by
  have s1 : reYoutubeCapture ("https://youtu.be/".data ++ L) =
      reYoutubeCapture ("ttps://youtu.be/".data ++ L) :=
    reYoutubeCapture_step 'h' ("ttps://youtu.be/".data ++ L) rfl
  have s2 : reYoutubeCapture ("ttps://youtu.be/".data ++ L) =
      reYoutubeCapture ("tps://youtu.be/".data ++ L) :=
    reYoutubeCapture_step 't' ("tps://youtu.be/".data ++ L) rfl
  have s3 : reYoutubeCapture ("tps://youtu.be/".data ++ L) =
      reYoutubeCapture ("ps://youtu.be/".data ++ L) :=
    reYoutubeCapture_step 't' ("ps://youtu.be/".data ++ L) rfl
  have s4 : reYoutubeCapture ("ps://youtu.be/".data ++ L) =
      reYoutubeCapture ("s://youtu.be/".data ++ L) :=
    reYoutubeCapture_step 'p' ("s://youtu.be/".data ++ L) rfl
  have s5 : reYoutubeCapture ("s://youtu.be/".data ++ L) =
      reYoutubeCapture ("://youtu.be/".data ++ L) :=
    reYoutubeCapture_step 's' ("://youtu.be/".data ++ L) rfl
  have s6 : reYoutubeCapture ("://youtu.be/".data ++ L) =
      reYoutubeCapture ("//youtu.be/".data ++ L) :=
    reYoutubeCapture_step ':' ("//youtu.be/".data ++ L) rfl
  have s7 : reYoutubeCapture ("//youtu.be/".data ++ L) =
      reYoutubeCapture ("/youtu.be/".data ++ L) :=
    reYoutubeCapture_step '/' ("/youtu.be/".data ++ L) rfl
  have s8 : reYoutubeCapture ("/youtu.be/".data ++ L) =
      reYoutubeCapture ("youtu.be/".data ++ L) :=
    reYoutubeCapture_step '/' ("youtu.be/".data ++ L) rfl
  rw [s1, s2, s3, s4, s5, s6, s7, s8]
  exact reYoutubeCapture_hit 'y' ("outu.be/".data ++ L) L (tm_be L hlen hall)

set_option maxRecDepth 100000 in
/-- C5 fails as stated: an 11-character input containing a delimiter
character (here `?`) is returned unchanged by the bare-id rule, but the
same identifier embedded in a `youtu.be/` URL cannot be extracted — the
capture class `[^"&?\/\s]{11}` excludes `?` — so the URL form fails with
`InvalidIdentifier` instead of yielding the same identifier. -/
theorem c5_counterexample :
    retrieveVideoId "aaaaa?aaaaa" = .ok "aaaaa?aaaaa" ∧
    retrieveVideoId "https://youtu.be/aaaaa?aaaaa" = .error .invalidIdentifier :=
  ⟨rfl, rfl⟩

/-- C5 (amended): every 11-character input is returned unchanged with no
validation; for every known URL shape (`watch?v=`, `embed/`, `youtu.be/`,
`/v/`) embedding an 11-character identifier *drawn from the capture
alphabet* (no quote, ampersand, question mark, slash or whitespace),
resolving the URL yields the same identifier as passing the bare id; and
every input whose length is not 11 and that matches no URL pattern fails
with `InvalidIdentifier`.  (The model is a pure function: no network, no
side effects.) -/
theorem c5_amended :
    (∀ s : String, s.length = 11 → retrieveVideoId s = .ok s) ∧
    (∀ L : List Char, L.length = 11 → (∀ c ∈ L, idChar c = true) →
      retrieveVideoId (String.mk L) = .ok (String.mk L) ∧
      retrieveVideoId ("https://www.youtube.com/watch?v=" ++ String.mk L) =
        .ok (String.mk L) ∧
      retrieveVideoId ("https://www.youtube.com/embed/" ++ String.mk L) =
        .ok (String.mk L) ∧
      retrieveVideoId ("https://www.youtube.com/v/" ++ String.mk L) =
        .ok (String.mk L) ∧
      retrieveVideoId ("https://youtu.be/" ++ String.mk L) = .ok (String.mk L)) ∧
    (∀ s : String, s.length ≠ 11 → reYoutubeCapture s.data = none →
      retrieveVideoId s = .error .invalidIdentifier) := by
  refine ⟨fun s h => ?_, fun L hlen hall => ?_, fun s h1 h2 => ?_⟩
  · unfold retrieveVideoId
    rw [if_pos h]
  · refine ⟨?_, ?_, ?_, ?_, ?_⟩
    · unfold retrieveVideoId
      rw [if_pos (show (String.mk L).length = 11 from hlen)]
    · rw [show ("https://www.youtube.com/watch?v=" ++ String.mk L) =
        String.mk ("https://www.youtube.com/watch?v=".data ++ L) from rfl]
      unfold retrieveVideoId
      rw [if_neg (by
        show ¬ ("https://www.youtube.com/watch?v=".data ++ L).length = 11
        rw [List.length_append, hlen]
        decide)]
      rw [show (String.mk ("https://www.youtube.com/watch?v=".data ++ L)).data =
        "https://www.youtube.com/watch?v=".data ++ L from rfl]
      rw [scan_watch L hlen hall]
    · rw [show ("https://www.youtube.com/embed/" ++ String.mk L) =
        String.mk ("https://www.youtube.com/embed/".data ++ L) from rfl]
      unfold retrieveVideoId
      rw [if_neg (by
        show ¬ ("https://www.youtube.com/embed/".data ++ L).length = 11
        rw [List.length_append, hlen]
        decide)]
      rw [show (String.mk ("https://www.youtube.com/embed/".data ++ L)).data =
        "https://www.youtube.com/embed/".data ++ L from rfl]
      rw [scan_embed L hlen hall]
    · rw [show ("https://www.youtube.com/v/" ++ String.mk L) =
        String.mk ("https://www.youtube.com/v/".data ++ L) from rfl]
      unfold retrieveVideoId
      rw [if_neg (by
        show ¬ ("https://www.youtube.com/v/".data ++ L).length = 11
        rw [List.length_append, hlen]
        decide)]
      rw [show (String.mk ("https://www.youtube.com/v/".data ++ L)).data =
        "https://www.youtube.com/v/".data ++ L from rfl]
      rw [scan_v L hlen hall]
    · rw [show ("https://youtu.be/" ++ String.mk L) =
        String.mk ("https://youtu.be/".data ++ L) from rfl]
      unfold retrieveVideoId
      rw [if_neg (by
        show ¬ ("https://youtu.be/".data ++ L).length = 11
        rw [List.length_append, hlen]
        decide)]
      rw [show (String.mk ("https://youtu.be/".data ++ L)).data =
        "https://youtu.be/".data ++ L from rfl]
      rw [scan_be L hlen hall]
  · unfold retrieveVideoId
    rw [if_neg h1, h2]

set_option maxRecDepth 100000 in
/-- Witness for C5 (amended) at concrete identifiers and URLs. -/
theorem c5_amended_witness :
    retrieveVideoId "elevenchars" = .ok "elevenchars" ∧
    retrieveVideoId "https://www.youtube.com/watch?v=dQw4w9WgXcQ" = .ok "dQw4w9WgXcQ" ∧
    retrieveVideoId "https://youtu.be/dQw4w9WgXcQ" = .ok "dQw4w9WgXcQ" ∧
    retrieveVideoId "https://example.com/page" = .error .invalidIdentifier :=
  ⟨c5_amended.1 "elevenchars" rfl,
   (c5_amended.2.1 "dQw4w9WgXcQ".data rfl (by decide)).2.1,
   (c5_amended.2.1 "dQw4w9WgXcQ".data rfl (by decide)).2.2.2.2,
   c5_amended.2.2 "https://example.com/page" (by decide) rfl⟩
